import Mathlib

/-!
Verification of the runplanr training-plan generation pipeline.

The TypeScript sources are shallowly embedded: JavaScript numbers are
modelled as rationals (`ℚ`), `Math.floor` as `Int.floor`, `Math.round`
as `jsRound` below, arrays as lists, and the ambient `Math.random`
source as an explicit stream `rand : ℕ → ℚ` of draws in `[0, 1)`
(indexed by how many draws happened before).  `Date`-valued metadata
fields and the impure plan-id generator are not modelled (no claim
mentions them); where this matters it is noted on the definition.
-/

namespace RunPlanr

/-- JavaScript `Math.round` for the nonnegative numbers arising in this
code base: `Math.round(x) = ⌊x + 1/2⌋`. -/
def jsRound (x : ℚ) : ℤ := ⌊x + 1/2⌋

/-- `RaceDistance` from `types/configuration.ts`. -/
inductive RaceDistance
  | fiveK
  | tenK
  | halfMarathon
  | marathon
deriving DecidableEq, Repr

/-- `TrainingPhase` from `types/workout.ts`. -/
inductive TrainingPhase
  | base
  | build
  | peak
  | taper
deriving DecidableEq, Repr

/-- User experience levels (`UserExperience` in `types/configuration.ts`). -/
inductive Experience
  | beginner
  | intermediate
  | advanced
deriving DecidableEq, Repr

/-- `DayOfWeek` from `types/configuration.ts`. -/
inductive DayOfWeek
  | monday
  | tuesday
  | wednesday
  | thursday
  | friday
  | saturday
  | sunday
deriving DecidableEq, Repr

/-- `WorkoutType` as used by the distribution/scheduling composables
(`easy`, `long`, `quality`, `rest` -- the key set of `MVP_WORKOUT_TYPES`). -/
inductive WorkoutType
  | easy
  | long
  | quality
  | rest
deriving DecidableEq, Repr

/-- `IntensityZone` from `types/workout.ts`. -/
inductive IntensityZone
  | zone1
  | zone2
  | zone3
  | zone4
  | zone5
deriving DecidableEq, Repr

/-- `Workout` from `types/workout.ts` (optional pace-display fields kept
as options). -/
structure Workout where
  type : WorkoutType
  duration : ℚ
  distance : Option ℚ
  intensity : IntensityZone
  description : String
  paceGuidance : String
  recoveryTime : ℚ
  targetPace : Option ℚ := none
  paceInstruction : Option String := none
  displayPace : Option String := none
deriving DecidableEq, Repr

/-- `DailyWorkout` from `types/workout.ts`. -/
structure DailyWorkout where
  dayOfWeek : DayOfWeek
  workout : Option Workout
  isRestDay : Bool
  notes : Option String := none
deriving DecidableEq, Repr

/-- The `DAYS_OF_WEEK` array (`Monday` first) used for index arithmetic. -/
def DAYS_OF_WEEK : List DayOfWeek :=
  [.monday, .tuesday, .wednesday, .thursday, .friday, .saturday, .sunday]

/-- `DAYS_OF_WEEK.indexOf(day)`. -/
def dayIndex (day : DayOfWeek) : ℕ :=
  DAYS_OF_WEEK.indexOf day

/-- Array access `DAYS_OF_WEEK[i]` (with `Monday` as the out-of-range
default, never used for indices `0..6`). -/
def dayAt (i : ℕ) : DayOfWeek :=
  DAYS_OF_WEEK.getD i .monday

/-! ## Phase periodization (`usePhasePeriodization.ts`) -/

/-- One entry of `PHASE_DISTRIBUTION_BY_RACE`. -/
structure PhaseDist where
  base : ℚ
  build : ℚ
  peak : ℚ
  taper : ℚ
deriving DecidableEq, Repr

/-- `PHASE_DISTRIBUTION_BY_RACE`. -/
def PHASE_DISTRIBUTION_BY_RACE : RaceDistance → PhaseDist
  | .fiveK => ⟨3/10, 4/10, 2/10, 1/10⟩
  | .tenK => ⟨35/100, 35/100, 2/10, 1/10⟩
  | .halfMarathon => ⟨4/10, 3/10, 2/10, 1/10⟩
  | .marathon => ⟨45/100, 25/100, 2/10, 1/10⟩

/-- Mutable record of per-phase week counts used inside
`calculatePhasePeriodization`. -/
structure PhaseDurations where
  base : ℤ
  build : ℤ
  peak : ℤ
  taper : ℤ
deriving DecidableEq, Repr

/-- `MINIMUM_PHASE_DURATIONS`. -/
def MINIMUM_PHASE_DURATIONS : PhaseDurations := ⟨3, 3, 2, 1⟩

/-- Record read `phaseDurations[phase]`. -/
def PhaseDurations.get (pd : PhaseDurations) : TrainingPhase → ℤ
  | .base => pd.base
  | .build => pd.build
  | .peak => pd.peak
  | .taper => pd.taper

/-- Record write `phaseDurations[phase] = v`. -/
def PhaseDurations.put (pd : PhaseDurations) : TrainingPhase → ℤ → PhaseDurations
  | .base, v => { pd with base := v }
  | .build, v => { pd with build := v }
  | .peak, v => { pd with peak := v }
  | .taper, v => { pd with taper := v }

/-- Stable insertion into a descending list, modelling one step of the
(stable, ES2019) JavaScript `Array.sort` with comparator `(a, b) => b - a`. -/
def insertPhaseDesc (x : TrainingPhase × ℤ) :
    List (TrainingPhase × ℤ) → List (TrainingPhase × ℤ)
  | [] => [x]
  | y :: ys => if y.2 ≤ x.2 then x :: y :: ys else y :: insertPhaseDesc x ys

/-- Stable descending sort of the `Object.entries(phaseDurations)` list. -/
def sortPhasesDesc : List (TrainingPhase × ℤ) → List (TrainingPhase × ℤ)
  | [] => []
  | x :: xs => insertPhaseDesc x (sortPhasesDesc xs)

/-- The `totalWeeks < totalMinimumWeeks` branch of
`calculatePhasePeriodization`: proportional allocation with a one-phase
(or two-phase) rebalancing step. -/
def shortProgramDurations (totalWeeks : ℕ) (distribution : PhaseDist) :
    PhaseDurations :=
  let baseWeeks := max 1 ⌊(totalWeeks : ℚ) * distribution.base⌋
  let buildWeeks := max 1 ⌊(totalWeeks : ℚ) * distribution.build⌋
  let peakWeeks := max 1 ⌊(totalWeeks : ℚ) * distribution.peak⌋
  let taperWeeks := max 1 ⌊(totalWeeks : ℚ) * distribution.taper⌋
  let calculatedTotal := baseWeeks + buildWeeks + peakWeeks + taperWeeks
  let pd : PhaseDurations := ⟨baseWeeks, buildWeeks, peakWeeks, taperWeeks⟩
  let difference := (totalWeeks : ℤ) - calculatedTotal
  if difference = 0 then pd
  else
    let phases := sortPhasesDesc
      [(TrainingPhase.base, pd.base), (TrainingPhase.build, pd.build),
       (TrainingPhase.peak, pd.peak), (TrainingPhase.taper, pd.taper)]
    let p0 := (phases.getD 0 (TrainingPhase.base, 0)).1
    let p1 := (phases.getD 1 (TrainingPhase.base, 0)).1
    let pd := pd.put p0 (pd.get p0 + difference)
    if pd.get p0 < 1 then
      let pd := pd.put p0 1
      -- the source reads the slot again after writing 1 into it
      let deficit := 1 - (pd.get p0 + difference)
      pd.put p1 (max 1 (pd.get p1 - deficit))
    else pd

/-- The normal branch of `calculatePhasePeriodization`: floors with
per-phase minimums, then one reconciliation adjustment on the larger of
base/build. -/
def normalDurations (totalWeeks : ℕ) (distribution : PhaseDist) :
    PhaseDurations :=
  let pd : PhaseDurations :=
    ⟨max ⌊(totalWeeks : ℚ) * distribution.base⌋ MINIMUM_PHASE_DURATIONS.base,
     max ⌊(totalWeeks : ℚ) * distribution.build⌋ MINIMUM_PHASE_DURATIONS.build,
     max ⌊(totalWeeks : ℚ) * distribution.peak⌋ MINIMUM_PHASE_DURATIONS.peak,
     max ⌊(totalWeeks : ℚ) * distribution.taper⌋ MINIMUM_PHASE_DURATIONS.taper⟩
  let totalCalculated := pd.base + pd.build + pd.peak + pd.taper
  if totalCalculated = totalWeeks then pd
  else
    let adjustment := (totalWeeks : ℤ) - totalCalculated
    if pd.build ≤ pd.base then
      { pd with base := max MINIMUM_PHASE_DURATIONS.base (pd.base + adjustment) }
    else
      { pd with build := max MINIMUM_PHASE_DURATIONS.build (pd.build + adjustment) }

/-- `PhaseConfiguration` from `usePhasePeriodization.ts`. -/
structure PhaseConfiguration where
  phase : TrainingPhase
  startWeek : ℤ
  endWeek : ℤ
  durationWeeks : ℤ
  percentage : ℚ
  focus : String
  characteristics : List String
  workoutEmphasis : List String
deriving DecidableEq, Repr

/-- `PhaseTransition` from `usePhasePeriodization.ts`. -/
structure PhaseTransition where
  fromPhase : TrainingPhase
  toPhase : TrainingPhase
  transitionWeek : ℤ
  adjustments : List String
  warnings : List String
deriving DecidableEq, Repr

/-- `PhasePeriodization` from `usePhasePeriodization.ts`. -/
structure PhasePeriodization where
  totalWeeks : ℕ
  raceDistance : RaceDistance
  phases : List PhaseConfiguration
  phaseTransitions : List PhaseTransition
deriving DecidableEq, Repr

/-- `getTransitionAdjustments` (keyed lookup of fixed guidance text). -/
def getTransitionAdjustments : TrainingPhase → TrainingPhase → List String
  | .base, .build =>
    ["Introduce tempo runs and intervals gradually",
     "Maintain easy run volume while adding quality",
     "Ensure adequate recovery between hard sessions",
     "Monitor for signs of overreaching"]
  | .build, .peak =>
    ["Shift focus to race-specific paces",
     "Reduce overall volume slightly",
     "Increase workout specificity",
     "Add tune-up races or time trials"]
  | .peak, .taper =>
    ["Reduce training volume by 20-30%",
     "Maintain intensity but reduce duration",
     "Increase recovery emphasis",
     "Focus on race preparation and strategy"]
  | _, _ => []

/-- `getTransitionWarnings`. -/
def getTransitionWarnings : TrainingPhase → TrainingPhase → List String
  | .base, .build =>
    ["Avoid sudden intensity increases",
     "Watch for overuse injuries as intensity increases",
     "Maintain consistency in easy running"]
  | .build, .peak =>
    ["Don\x27t sacrifice recovery for extra intensity",
     "Avoid trying new workouts close to race",
     "Monitor fatigue levels carefully"]
  | .peak, .taper =>
    ["Resist urge to maintain high volume",
     "Trust the taper process",
     "Avoid new activities or changes"]
  | _, _ => []

/-- `createPhaseTransitions`: one transition per adjacent phase pair. -/
def createPhaseTransitions : List PhaseConfiguration → List PhaseTransition
  | currentPhase :: nextPhase :: rest =>
    { fromPhase := currentPhase.phase
      toPhase := nextPhase.phase
      transitionWeek := nextPhase.startWeek
      adjustments := getTransitionAdjustments currentPhase.phase nextPhase.phase
      warnings := getTransitionWarnings currentPhase.phase nextPhase.phase } ::
      createPhaseTransitions (nextPhase :: rest)
  | _ => []

/-- `calculatePhasePeriodization(totalWeeks, raceDistance)`. -/
def calculatePhasePeriodization (totalWeeks : ℕ) (raceDistance : RaceDistance) :
    PhasePeriodization :=
  let distribution := PHASE_DISTRIBUTION_BY_RACE raceDistance
  let totalMinimumWeeks :=
    MINIMUM_PHASE_DURATIONS.base + MINIMUM_PHASE_DURATIONS.build +
      MINIMUM_PHASE_DURATIONS.peak + MINIMUM_PHASE_DURATIONS.taper
  let phaseDurations :=
    if (totalWeeks : ℤ) < totalMinimumWeeks then
      shortProgramDurations totalWeeks distribution
    else
      normalDurations totalWeeks distribution
  let basePhase : PhaseConfiguration :=
    { phase := .base
      startWeek := 1
      endWeek := 1 + phaseDurations.base - 1
      durationWeeks := phaseDurations.base
      percentage := ((phaseDurations.base : ℚ) / (totalWeeks : ℚ)) * 100
      focus := "Aerobic Development & Base Building"
      characteristics :=
        ["High volume, low intensity training",
         "Focus on aerobic enzyme development",
         "Injury prevention and movement efficiency",
         "Gradual volume progression",
         "Limited quality work (tempo runs)"]
      workoutEmphasis := ["easy runs", "long runs", "occasional tempo"] }
  let buildStart := 1 + phaseDurations.base
  let buildPhase : PhaseConfiguration :=
    { phase := .build
      startWeek := buildStart
      endWeek := buildStart + phaseDurations.build - 1
      durationWeeks := phaseDurations.build
      percentage := ((phaseDurations.build : ℚ) / (totalWeeks : ℚ)) * 100
      focus := "Lactate Threshold & VO2 Max Development"
      characteristics :=
        ["Moderate volume with increased intensity",
         "Lactate threshold development",
         "VO2 max improvement through intervals",
         "Hill training for strength and power",
         "Progressive long run development"]
      workoutEmphasis := ["tempo runs", "intervals", "hill repeats", "long runs"] }
  let peakStart := buildStart + phaseDurations.build
  let peakPhase : PhaseConfiguration :=
    { phase := .peak
      startWeek := peakStart
      endWeek := peakStart + phaseDurations.peak - 1
      durationWeeks := phaseDurations.peak
      percentage := ((phaseDurations.peak : ℚ) / (totalWeeks : ℚ)) * 100
      focus := "Race-Specific Fitness & Sharpening"
      characteristics :=
        ["Race-specific pace training",
         "Neuromuscular sharpening",
         "Tune-up races and time trials",
         "Mental preparation and confidence building",
         "Peak fitness development"]
      workoutEmphasis := ["race pace intervals", "tune-up races", "specific workouts"] }
  let taperStart := peakStart + phaseDurations.peak
  let taperPhase : PhaseConfiguration :=
    { phase := .taper
      startWeek := taperStart
      endWeek := (totalWeeks : ℤ)
      durationWeeks := phaseDurations.taper
      percentage := ((phaseDurations.taper : ℚ) / (totalWeeks : ℚ)) * 100
      focus := "Recovery & Race Preparation"
      characteristics :=
        ["Significant volume reduction (20-30%)",
         "Maintained intensity with reduced duration",
         "Enhanced recovery and freshness",
         "Mental preparation and race strategy",
         "Peak race readiness"]
      workoutEmphasis := ["short intervals", "strides", "easy runs", "race prep"] }
  let phases := [basePhase, buildPhase, peakPhase, taperPhase]
  { totalWeeks := totalWeeks
    raceDistance := raceDistance
    phases := phases
    phaseTransitions := createPhaseTransitions phases }

/-- `getPhaseForWeek(weekNumber, periodization)`: first phase whose
week range contains the week, with the source fallback chain. -/
def getPhaseForWeek (weekNumber : ℕ) (periodization : PhasePeriodization) :
    TrainingPhase :=
  match periodization.phases.find? (fun p =>
      decide (p.startWeek ≤ (weekNumber : ℤ)) && decide ((weekNumber : ℤ) ≤ p.endWeek)) with
  | some p => p.phase
  | none =>
    if weekNumber ≤ 4 then .base
    else if (weekNumber : ℤ) ≤ (periodization.totalWeeks : ℤ) - 4 then .build
    else if (weekNumber : ℤ) ≤ (periodization.totalWeeks : ℤ) - 2 then .peak
    else .taper

/-- Executable specification used by claim C1: the phase list starts at
`startW`, each phase covers `[startWeek, endWeek]` with a coherent,
positive `durationWeeks`, and consecutive phases are contiguous, ending
exactly at `endW`. -/
def phasesContiguousFrom (startW endW : ℤ) : List PhaseConfiguration → Bool
  | [] => startW == endW + 1
  | p :: ps =>
    p.startWeek == startW && p.endWeek == p.startWeek + p.durationWeeks - 1 &&
      decide (1 ≤ p.durationWeeks) && phasesContiguousFrom (p.endWeek + 1) endW ps

/-! ## Volume progression (`useProgressionRules.ts`) -/

/-- `ProgressionConfig`.  `userExperience` is optional in the source with
default `intermediate`; it is kept as a plain field here (callers of the
embedding supply the defaulted value). -/
structure ProgressionConfig where
  raceDistance : RaceDistance
  programLength : ℕ
  trainingDaysPerWeek : ℕ
  deloadFrequency : ℕ
  userExperience : Experience
deriving DecidableEq, Repr

/-- `WeeklyVolumeCalculation`.  `adjustedVolume` always carries a
`Math.round` result, so it is typed `ℤ` here. -/
structure WeeklyVolumeCalculation where
  weekNumber : ℕ
  baseVolume : ℚ
  adjustedVolume : ℤ
  isDeloadWeek : Bool
  progressionRate : ℚ
  notes : List String
deriving DecidableEq, Repr

/-- `BASE_WEEKLY_DISTANCE` (kilometres). -/
def BASE_WEEKLY_DISTANCE : RaceDistance → Experience → ℤ
  | .fiveK, .beginner => 24
  | .fiveK, .intermediate => 32
  | .fiveK, .advanced => 40
  | .tenK, .beginner => 32
  | .tenK, .intermediate => 40
  | .tenK, .advanced => 48
  | .halfMarathon, .beginner => 40
  | .halfMarathon, .intermediate => 48
  | .halfMarathon, .advanced => 64
  | .marathon, .beginner => 48
  | .marathon, .intermediate => 64
  | .marathon, .advanced => 80

/-- `MAX_WEEKLY_DISTANCE` (kilometres). -/
def MAX_WEEKLY_DISTANCE : RaceDistance → Experience → ℤ
  | .fiveK, .beginner => 56
  | .fiveK, .intermediate => 72
  | .fiveK, .advanced => 88
  | .tenK, .beginner => 72
  | .tenK, .intermediate => 88
  | .tenK, .advanced => 104
  | .halfMarathon, .beginner => 88
  | .halfMarathon, .intermediate => 104
  | .halfMarathon, .advanced => 128
  | .marathon, .beginner => 104
  | .marathon, .intermediate => 128
  | .marathon, .advanced => 160

/-- `PROGRESSION_CONSTANTS.MAX_WEEKLY_INCREASE`. -/
def MAX_WEEKLY_INCREASE : ℚ := 10/100

/-- `PROGRESSION_CONSTANTS.SAFE_WEEKLY_INCREASE`. -/
def SAFE_WEEKLY_INCREASE : ℚ := 8/100

/-- `PROGRESSION_CONSTANTS.DELOAD_REDUCTION_MIN`. -/
def DELOAD_REDUCTION_MIN : ℚ := 20/100

/-- `PROGRESSION_CONSTANTS.DELOAD_REDUCTION_MAX`. -/
def DELOAD_REDUCTION_MAX : ℚ := 30/100

/-- `PROGRESSION_CONSTANTS.AGGRESSIVE_THRESHOLD`. -/
def AGGRESSIVE_THRESHOLD : ℚ := 12/100

/-- `PROGRESSION_CONSTANTS.PLATEAU_WEEKS`. -/
def PLATEAU_WEEKS : ℕ := 2

/-- `calculateStartingDistance(raceDistance, userExperience)`. -/
def calculateStartingDistance (raceDistance : RaceDistance)
    (userExperience : Experience) : ℤ :=
  BASE_WEEKLY_DISTANCE raceDistance userExperience

/-- `getMaxWeeklyDistance(raceDistance, userExperience)`. -/
def getMaxWeeklyDistance (raceDistance : RaceDistance)
    (userExperience : Experience) : ℤ :=
  MAX_WEEKLY_DISTANCE raceDistance userExperience

/-- `isDeloadWeekNumber(weekNumber, deloadFrequency)`: week 1 is never a
deload week, otherwise deload iff the week number is a multiple of the
cadence. -/
def isDeloadWeekNumber (weekNumber deloadFrequency : ℕ) : Bool :=
  if weekNumber = 1 then false else weekNumber % deloadFrequency == 0

/-- The deload reduction draw
`DELOAD_REDUCTION_MIN + Math.random() * (DELOAD_REDUCTION_MAX - DELOAD_REDUCTION_MIN)`
of `calculateWeeklyVolumes` (`ri` is the index of the draw). -/
def deloadReductionDraw (rand : ℕ → ℚ) (ri : ℕ) : ℚ :=
  DELOAD_REDUCTION_MIN + rand ri * (DELOAD_REDUCTION_MAX - DELOAD_REDUCTION_MIN)

/-- The deload-week entry pushed by `calculateWeeklyVolumes`. -/
def deloadWeekEntry (rand : ℕ → ℚ) (week : ℕ) (currentVolume : ℚ) (ri : ℕ) :
    WeeklyVolumeCalculation :=
  let deloadReduction := deloadReductionDraw rand ri
  { weekNumber := week
    baseVolume := currentVolume
    adjustedVolume := jsRound (currentVolume * (1 - deloadReduction))
    isDeloadWeek := true
    progressionRate := -deloadReduction
    notes := ["Deload week: " ++ toString (jsRound (deloadReduction * 100)) ++
      "% volume reduction for recovery"] }

/-- The progression computation of a regular training week whose previous
week was not a deload week: the safe 8% increase (9.6% capped at 10%
after `PLATEAU_WEEKS` consecutive increases), clamped to the maximum
distance.  Returns the new unrounded target volume, the applied
progression rate and the notes, exactly as `calculateWeeklyVolumes`
computes them. -/
def progressionStep (maxDistance previousVolume : ℚ) (consec : ℕ) :
    ℚ × ℚ × List String :=
  let weeklyIncrease :=
    if PLATEAU_WEEKS ≤ consec then
      min MAX_WEEKLY_INCREASE (SAFE_WEEKLY_INCREASE * (12/10))
    else SAFE_WEEKLY_INCREASE
  let rawTarget := previousVolume * (1 + weeklyIncrease)
  let aggressiveNotes :=
    if AGGRESSIVE_THRESHOLD < weeklyIncrease then
      ["Aggressive progression detected - monitor for overtraining signs"]
    else []
  if maxDistance < rawTarget then
    (maxDistance, (maxDistance - previousVolume) / previousVolume,
      ["Volume capped at " ++ toString maxDistance ++ " km for safety"] ++
        aggressiveNotes)
  else
    (rawTarget, weeklyIncrease, aggressiveNotes)

/-- The `previousVolume = volumes[week - 2]?.adjustedVolume || currentVolume`
read (`0` is falsy in JavaScript). -/
def previousVolumeOf (prev : Option WeeklyVolumeCalculation)
    (currentVolume : ℚ) : ℚ :=
  match prev with
  | some e => if e.adjustedVolume = 0 then currentVolume else (e.adjustedVolume : ℚ)
  | none => currentVolume

/-- The entry pushed for a regular training week that progresses from
the previous (non-deload) week. -/
def progressEntry (maxDistance : ℚ) (prev : Option WeeklyVolumeCalculation)
    (currentVolume : ℚ) (consec : ℕ) (week : ℕ) : WeeklyVolumeCalculation :=
  { weekNumber := week
    baseVolume := currentVolume
    adjustedVolume :=
      jsRound (progressionStep maxDistance (previousVolumeOf prev currentVolume) consec).1
    isDeloadWeek := false
    progressionRate :=
      (progressionStep maxDistance (previousVolumeOf prev currentVolume) consec).2.1
    notes :=
      (progressionStep maxDistance (previousVolumeOf prev currentVolume) consec).2.2 }

/-- The entry pushed for week 1 and for the week immediately after a
deload week (no progression: the target stays at `currentVolume`). -/
def steadyEntry (week : ℕ) (currentVolume : ℚ) : WeeklyVolumeCalculation :=
  { weekNumber := week
    baseVolume := currentVolume
    adjustedVolume := jsRound currentVolume
    isDeloadWeek := false
    progressionRate := 0
    notes := [] }

/-- The week loop of `calculateWeeklyVolumes`, with the loop state made
explicit: `remaining` weeks still to emit, current `week` number, the
unrounded `currentVolume`, the `consecutiveIncreaseWeeks` counter, the
index `ri` of the next `Math.random()` draw, and the previously pushed
entry (`volumes[week - 2]`). -/
def weeklyVolumesAux (deloadFrequency : ℕ) (rand : ℕ → ℚ) (maxDistance : ℚ) :
    (remaining week : ℕ) → (currentVolume : ℚ) →
    (consecutiveIncreaseWeeks ri : ℕ) → Option WeeklyVolumeCalculation →
    List WeeklyVolumeCalculation
  | 0, _, _, _, _, _ => []
  | remaining + 1, week, currentVolume, consec, ri, prev =>
    if isDeloadWeekNumber week deloadFrequency then
      deloadWeekEntry rand week currentVolume ri ::
        weeklyVolumesAux deloadFrequency rand maxDistance remaining
          (week + 1) currentVolume 0 (ri + 1)
          (some (deloadWeekEntry rand week currentVolume ri))
    else
      if 1 < week ∧ ¬(prev.elim false (·.isDeloadWeek)) then
        progressEntry maxDistance prev currentVolume consec week ::
          weeklyVolumesAux deloadFrequency rand maxDistance remaining
            (week + 1)
            (progressionStep maxDistance (previousVolumeOf prev currentVolume) consec).1
            (consec + 1) ri
            (some (progressEntry maxDistance prev currentVolume consec week))
      else
        steadyEntry week currentVolume ::
          weeklyVolumesAux deloadFrequency rand maxDistance remaining
            (week + 1) currentVolume consec ri
            (some (steadyEntry week currentVolume))

/-- `calculateWeeklyVolumes(config)`, with the `Math.random` stream made
explicit. -/
def calculateWeeklyVolumes (config : ProgressionConfig) (rand : ℕ → ℚ) :
    List WeeklyVolumeCalculation :=
  let startingDistance :=
    calculateStartingDistance config.raceDistance config.userExperience
  let maxDistance := getMaxWeeklyDistance config.raceDistance config.userExperience
  weeklyVolumesAux config.deloadFrequency rand (maxDistance : ℚ)
    config.programLength 1 (startingDistance : ℚ) 0 0 none

/-- A `Math.random` stream: every draw lies in `[0, 1)`. -/
def ValidRandomStream (rand : ℕ → ℚ) : Prop :=
  ∀ k, 0 ≤ rand k ∧ rand k < 1

/-- Number of consecutive progressed weeks immediately before week `w`
(the value that `consecutiveIncreaseWeeks` holds when the loop of
`calculateWeeklyVolumes` reaches week `w`); used as the induction
invariant for claims C2, C6 and C10. -/
def consecF (c w : ℕ) : ℕ :=
  if w = 1 then 0 else (w - 2) - c * ((w - 1) / c)

/-- Entry-level bounds established for every output entry of
`calculateWeeklyVolumes` (claims C2, C10): the adjusted volume lies
between 17 km and the safety cap `M`, and a non-deload week is at least
the starting distance `S` and carries a progression rate between 0 and
the safe 8%. -/
def VolumeEntryOK (S M : ℤ) (e : WeeklyVolumeCalculation) : Prop :=
  17 ≤ e.adjustedVolume ∧ e.adjustedVolume ≤ M ∧
    (e.isDeloadWeek = false →
      S ≤ e.adjustedVolume ∧ 0 ≤ e.progressionRate ∧
        e.progressionRate ≤ SAFE_WEEKLY_INCREASE)

/-- Pair-level bounds established for adjacent output entries of
`calculateWeeklyVolumes` (claims C2, C6): two adjacent non-deload weeks
grow by at most `8% of the previous volume + 1/2 km` of rounding
(stated as at most 11% of a volume that is at least 17), and a deload
week drops strictly below the previous week, by between 20% and 30% of
it up to `3/2` of rounding slack. -/
def VolumePairOK (a b : WeeklyVolumeCalculation) : Prop :=
  17 ≤ a.adjustedVolume ∧
  (a.isDeloadWeek = false → b.isDeloadWeek = false →
    ((b.adjustedVolume : ℚ) - (a.adjustedVolume : ℚ)) ≤
      (11/100) * (a.adjustedVolume : ℚ)) ∧
  (b.isDeloadWeek = true →
    b.adjustedVolume < a.adjustedVolume ∧
    (1/5) * (a.adjustedVolume : ℚ) - 3/2 ≤
      (a.adjustedVolume : ℚ) - (b.adjustedVolume : ℚ) ∧
    (a.adjustedVolume : ℚ) - (b.adjustedVolume : ℚ) ≤
      (3/10) * (a.adjustedVolume : ℚ) + 3/2)

/-- Loop-state relation between the previously emitted entry and the
current unrounded volume in the week loop of `calculateWeeklyVolumes`. -/
def PrevState (c : ℕ) (S M : ℤ) (w : ℕ) (cur : ℚ) :
    Option WeeklyVolumeCalculation → Prop
  | none => w = 1
  | some e =>
    2 ≤ w ∧ e.isDeloadWeek = isDeloadWeekNumber (w - 1) c ∧
      17 ≤ e.adjustedVolume ∧ e.adjustedVolume ≤ M ∧
      (e.isDeloadWeek = false → e.adjustedVolume = jsRound cur ∧ S ≤ e.adjustedVolume)

/-- Relation between the `prev` loop states of two runs of the week loop
of `calculateWeeklyVolumes` with different random streams: the previous
entries carry the same deload flag and coincide when that flag is false
(claim C5). -/
def PrevAgree : Option WeeklyVolumeCalculation → Option WeeklyVolumeCalculation → Prop
  | none, none => True
  | some e1, some e2 =>
    e1.isDeloadWeek = e2.isDeloadWeek ∧ (e1.isDeloadWeek = false → e1 = e2)
  | some _, none => False
  | none, some _ => False

/-- Entry-wise agreement between two runs of `calculateWeeklyVolumes`
with different random streams: week number, base volume and deload flag
always coincide, and a non-deload entry coincides completely (claim C5). -/
def VolumeAgree (a b : WeeklyVolumeCalculation) : Prop :=
  a.weekNumber = b.weekNumber ∧ a.baseVolume = b.baseVolume ∧
    a.isDeloadWeek = b.isDeloadWeek ∧ (a.isDeloadWeek = false → a = b)

/-! ## Weekly scheduling (`useWorkoutScheduling.ts`, first half) -/

/-- `SchedulingConstraints`. -/
structure SchedulingConstraints where
  restDays : List DayOfWeek
  longRunDay : DayOfWeek
  trainingDaysPerWeek : ℕ
  minimumRecoveryHours : ℕ
deriving DecidableEq, Repr

/-- The five quality-workout sub-types of the rotation cycle. -/
inductive QualityType
  | tempo
  | threshold
  | intervals
  | hills
  | fartlek
deriving DecidableEq, Repr

/-- `QUALITY_WORKOUT_CYCLE`. -/
def QUALITY_WORKOUT_CYCLE : List QualityType :=
  [.tempo, .threshold, .intervals, .hills, .fartlek]

/-- One entry of `QUALITY_WORKOUT_DEFINITIONS`. -/
structure QualityWorkoutDefinition where
  name : String
  description : String
  intensity : IntensityZone
  recoveryHours : ℚ
  purpose : String
deriving DecidableEq, Repr

/-- `QUALITY_WORKOUT_DEFINITIONS`. -/
def QUALITY_WORKOUT_DEFINITIONS : QualityType → QualityWorkoutDefinition
  | .tempo =>
    ⟨"Tempo Run", "Comfortably hard sustained effort", .zone3, 48,
     "Lactate threshold development"⟩
  | .threshold =>
    ⟨"Threshold Intervals", "Broken lactate threshold efforts with short recoveries",
     .zone3, 42, "Lactate threshold power and buffering"⟩
  | .intervals =>
    ⟨"Interval Training", "High-intensity intervals with recovery", .zone4, 48,
     "VO2 max and speed development"⟩
  | .hills =>
    ⟨"Hill Repeats", "Uphill intervals for strength and power", .zone4, 48,
     "Strength, power, and running economy"⟩
  | .fartlek =>
    ⟨"Fartlek Training", "Unstructured speed play with varied pace", .zone3, 36,
     "Speed development and mental adaptability"⟩

/-- `QualityWorkoutRotation`. -/
structure QualityWorkoutRotation where
  weekNumber : ℕ
  qualityType : QualityType
  description : String
  nextRotation : QualityType
deriving DecidableEq, Repr

/-- `getQualityWorkoutRotation(weekNumber)`: index `(week - 1) % 5` into
the fixed cycle. -/
def getQualityWorkoutRotation (weekNumber : ℕ) : QualityWorkoutRotation :=
  let cycleIndex := (weekNumber - 1) % QUALITY_WORKOUT_CYCLE.length
  let currentType := QUALITY_WORKOUT_CYCLE.getD cycleIndex .tempo
  let nextIndex := (cycleIndex + 1) % QUALITY_WORKOUT_CYCLE.length
  let nextType := QUALITY_WORKOUT_CYCLE.getD nextIndex .tempo
  let workoutDef := QUALITY_WORKOUT_DEFINITIONS currentType
  { weekNumber := weekNumber
    qualityType := currentType
    description := workoutDef.name ++ ": " ++ workoutDef.description ++ " (" ++
      workoutDef.purpose ++ ")"
    nextRotation := nextType }

/-- `ScheduledWeek`. -/
structure ScheduledWeek where
  weekNumber : ℕ
  dailyWorkouts : List DailyWorkout
  qualityWorkoutRotation : QualityWorkoutRotation
  schedulingNotes : List String
  constraintViolations : List String
deriving DecidableEq, Repr

/-- `WorkoutSchedulingResult`. -/
structure WorkoutSchedulingResult where
  success : Bool
  scheduledWeek : Option ScheduledWeek
  errors : List String
  warnings : List String
deriving DecidableEq, Repr

/-- An entry of the workout bag handed to the scheduler
(`{ type: WorkoutType; workout: Workout }`). -/
structure WorkoutBagEntry where
  type : WorkoutType
  workout : Workout
deriving DecidableEq, Repr

/-- The string value of a quality sub-type (used in scheduling notes). -/
def qualityTypeName : QualityType → String
  | .tempo => "tempo"
  | .threshold => "threshold"
  | .intervals => "intervals"
  | .hills => "hills"
  | .fartlek => "fartlek"

/-- Day name shown in scheduling notes and violations. -/
def dayName : DayOfWeek → String
  | .monday => "Monday"
  | .tuesday => "Tuesday"
  | .wednesday => "Wednesday"
  | .thursday => "Thursday"
  | .friday => "Friday"
  | .saturday => "Saturday"
  | .sunday => "Sunday"

/-- Ascending insertion used to model the JavaScript numeric index sorts
(single-digit indices, so default string sort coincides). -/
def insertNatAsc (x : ℕ) : List ℕ → List ℕ
  | [] => [x]
  | y :: ys => if x ≤ y then x :: y :: ys else y :: insertNatAsc x ys

/-- Ascending sort of day indices. -/
def sortNatAsc : List ℕ → List ℕ
  | [] => []
  | x :: xs => insertNatAsc x (sortNatAsc xs)

/-- Scan for the consecutive-rest-day warning of
`validateSchedulingConstraints` (first match wins, as the source
`break`s). -/
def hasConsecutivePair : List ℕ → Bool
  | current :: next :: rest =>
    (next - current == 1 || (current == 0 && next == 6)) ||
      hasConsecutivePair (next :: rest)
  | _ => false

/-- Result triple of `validateSchedulingConstraints`. -/
structure ConstraintsValidation where
  isValid : Bool
  errors : List String
  warnings : List String
deriving DecidableEq, Repr

/-- `validateSchedulingConstraints(constraints)`. -/
def validateSchedulingConstraints (constraints : SchedulingConstraints) :
    ConstraintsValidation :=
  let availableDays : ℤ := 7 - constraints.restDays.length
  let errors :=
    (if availableDays < (constraints.trainingDaysPerWeek : ℤ) then
      ["Not enough available days: " ++ toString availableDays ++ " available, " ++
        toString constraints.trainingDaysPerWeek ++ " required"]
    else []) ++
    (if constraints.restDays.contains constraints.longRunDay then
      ["Long run day (" ++ dayName constraints.longRunDay ++
        ") conflicts with rest day preference"]
    else [])
  let restDayIndices := sortNatAsc (constraints.restDays.map dayIndex)
  let warnings :=
    (if hasConsecutivePair restDayIndices then
      ["Consecutive rest days may disrupt training rhythm"]
    else []) ++
    (if 6 < constraints.trainingDaysPerWeek then
      ["Training 7 days per week increases injury risk - consider at least one rest day"]
    else [])
  { isValid := errors.isEmpty, errors := errors, warnings := warnings }

/-- `calculateDaysBetween(day1Index, day2Index)`: minimum circular
distance between two day indices. -/
def calculateDaysBetween (day1Index day2Index : ℕ) : ℕ :=
  min ((day2Index + 7 - day1Index) % 7) ((day1Index + 7 - day2Index) % 7)

/-- Default `DailyWorkout` used for (never-taken) out-of-range list reads. -/
def defaultDay : DailyWorkout := ⟨.monday, none, true, none⟩

/-- `findOptimalQualityWorkoutDay(constraints, longRunDayIndex,
currentSchedule)`; `-1` is modelled as `none`. -/
def findOptimalQualityWorkoutDay (constraints : SchedulingConstraints)
    (longRunDayIndex : ℕ) (currentSchedule : List DailyWorkout) : Option ℕ :=
  let availableDays := (List.range 7).filter (fun i =>
    !constraints.restDays.contains (dayAt i) &&
      (currentSchedule.getD i defaultDay).workout.isNone && i != longRunDayIndex)
  if availableDays.isEmpty then none
  else
    let optimalDays := availableDays.filter (fun dayIndex =>
      2 ≤ calculateDaysBetween dayIndex longRunDayIndex)
    if optimalDays.isEmpty then availableDays.head? else optimalDays.head?

/-- Phase-specific quality workout descriptions
(`getPhaseSpecificDescription`). -/
def getPhaseSpecificDescription : QualityType → TrainingPhase → String
  | .tempo, .base => "Steady tempo effort to build lactate threshold"
  | .tempo, .build => "Progressive tempo run with race pace segments"
  | .tempo, .peak => "Race pace tempo with goal pace practice"
  | .tempo, .taper => "Short tempo segments to maintain sharpness"
  | .threshold, .base => "Broken threshold efforts to develop lactate buffering"
  | .threshold, .build => "Progressive threshold intervals with race pace focus"
  | .threshold, .peak => "Race-specific threshold intervals for power"
  | .threshold, .taper => "Short threshold segments for neuromuscular activation"
  | .intervals, .base => "Short intervals to introduce speed work"
  | .intervals, .build => "VO2 max intervals at 5K-10K pace"
  | .intervals, .peak => "Race-specific interval training"
  | .intervals, .taper => "Short, sharp intervals for race preparation"
  | .hills, .base => "Hill repeats for strength and form development"
  | .hills, .build => "Progressive hill intervals for power"
  | .hills, .peak => "Hill training for race-specific strength"
  | .hills, .taper => "Short hill strides for activation"
  | .fartlek, .base => "Playful speed changes to develop pace variety"
  | .fartlek, .build => "Structured fartlek with race pace surges"
  | .fartlek, .peak => "Race simulation fartlek with tactical surges"
  | .fartlek, .taper => "Short, fun pickups to maintain leg speed"

/-- Phase-specific quality pace guidance (`getPhaseSpecificPaceGuidance`). -/
def getPhaseSpecificPaceGuidance : QualityType → TrainingPhase → String
  | .tempo, .base => "Comfortably hard - sustainable for 20-30 minutes"
  | .tempo, .build => "Lactate threshold pace - hard but controlled"
  | .tempo, .peak => "Goal race pace for race-specific adaptation"
  | .tempo, .taper => "Moderate effort - focus on feel rather than pace"
  | .threshold, .base => "Threshold pace with short recoveries - comfortably hard"
  | .threshold, .build => "Lactate threshold pace - maintain across all intervals"
  | .threshold, .peak => "Goal race pace with race-specific recovery periods"
  | .threshold, .taper => "Threshold effort but shorter duration - feel-based"
  | .intervals, .base => "10K pace with full recovery between repeats"
  | .intervals, .build => "5K pace with moderate recovery intervals"
  | .intervals, .peak => "Goal race pace with race-specific recovery"
  | .intervals, .taper => "Slightly faster than race pace, short duration"
  | .hills, .base => "Moderate effort uphill - focus on form"
  | .hills, .build => "Hard effort uphill - 5K effort level"
  | .hills, .peak => "Strong uphill effort with quick turnover"
  | .hills, .taper => "Controlled effort - activation rather than stress"
  | .fartlek, .base => "Vary effort by feel - mix easy with moderate surges"
  | .fartlek, .build => "Include 5K-10K pace surges with easy recovery"
  | .fartlek, .peak => "Practice race tactics with goal pace pickups"
  | .fartlek, .taper => "Light, playful surges - focus on leg turnover"

/-- `enhanceQualityWorkout(baseWorkout, qualityType, phase)`. -/
def enhanceQualityWorkout (baseWorkout : Workout) (qualityType : QualityType)
    (phase : TrainingPhase) : Workout :=
  let qualityDef := QUALITY_WORKOUT_DEFINITIONS qualityType
  { baseWorkout with
    type := .quality
    intensity := qualityDef.intensity
    description := qualityDef.name ++ " - " ++
      getPhaseSpecificDescription qualityType phase
    paceGuidance := getPhaseSpecificPaceGuidance qualityType phase
    recoveryTime := qualityDef.recoveryHours }

/-- `getAvailableTrainingDays(currentSchedule, constraints)`. -/
def getAvailableTrainingDays (currentSchedule : List DailyWorkout)
    (constraints : SchedulingConstraints) : List ℕ :=
  (List.range 7).filter (fun i =>
    !constraints.restDays.contains (dayAt i) &&
      (currentSchedule.getD i defaultDay).workout.isNone)

/-- The placement loop of `distributeEasyWorkouts`: write easy workout
`e` onto day index `i` for each scheduled pair. -/
def placeEasyWorkouts (dailyWorkouts : List DailyWorkout) :
    List (ℕ × WorkoutBagEntry) → List DailyWorkout
  | [] => dailyWorkouts
  | (dayIdx, easyWorkout) :: rest =>
    placeEasyWorkouts
      (dailyWorkouts.set dayIdx ⟨dayAt dayIdx, some easyWorkout.workout, false, none⟩)
      rest

/-- `distributeEasyWorkouts(...)`: schedule at most
`min(easy supply, available days, workouts still needed)` easy runs in
ascending day order, and report any surplus in the notes.
`maxWorkoutsToSchedule` is an `ℤ` because the JavaScript subtraction
producing it can go negative (the loop then runs zero times). -/
def distributeEasyWorkouts (dailyWorkouts : List DailyWorkout)
    (easyWorkouts : List WorkoutBagEntry) (availableDays : List ℕ)
    (maxWorkoutsToSchedule : ℤ) : List DailyWorkout × List String :=
  let sortedDays := sortNatAsc availableDays
  let workoutsToSchedule :=
    min (min easyWorkouts.length sortedDays.length)
      (max 0 maxWorkoutsToSchedule).toNat
  let pairs := (sortedDays.zip easyWorkouts).take workoutsToSchedule
  let result := placeEasyWorkouts dailyWorkouts pairs
  let notes :=
    pairs.map (fun p => "Easy run scheduled on " ++ dayName (dayAt p.1)) ++
    (if workoutsToSchedule < easyWorkouts.length then
      ["Note: " ++ toString (easyWorkouts.length - workoutsToSchedule) ++
        " easy workouts not scheduled due to training day limits"]
    else [])
  (result, notes)

/-- Adjacent-pair recovery scan of `validateFinalSchedule`. -/
def qualitySpacingViolations : List ℕ → List String
  | i :: j :: rest =>
    (if calculateDaysBetween i j < 2 then
      ["Insufficient recovery between quality workouts (less than 48 hours)"]
    else []) ++ qualitySpacingViolations (j :: rest)
  | _ => []

/-- Does this day carry a quality workout?  (The day predicate of the
quality-day scan in `validateFinalSchedule`.) -/
def isQualityDay (day : DailyWorkout) : Bool :=
  day.workout.elim false (fun w => w.type == WorkoutType.quality)

/-- The day indices carrying quality workouts (the `qualityDays` array of
`validateFinalSchedule`). -/
def qualityDayIdxs (dailyWorkouts : List DailyWorkout) : List ℕ :=
  (dailyWorkouts.enum.filter (fun p => isQualityDay p.2)).map (·.1)

/-- `validateFinalSchedule(dailyWorkouts, constraints)`. -/
def validateFinalSchedule (dailyWorkouts : List DailyWorkout)
    (constraints : SchedulingConstraints) : List String :=
  let scheduledTrainingDays :=
    (dailyWorkouts.filter (fun day => !day.isRestDay && day.workout.isSome)).length
  let countViolations :=
    if scheduledTrainingDays ≠ constraints.trainingDaysPerWeek then
      ["Scheduled " ++ toString scheduledTrainingDays ++ " training days, expected " ++
        toString constraints.trainingDaysPerWeek]
    else []
  let restViolations := constraints.restDays.filterMap (fun restDay =>
    if (dailyWorkouts.getD (dayIndex restDay) defaultDay).isRestDay then none
    else some ("Rest day violation: " ++ dayName restDay ++ " has a scheduled workout"))
  countViolations ++ restViolations ++
    qualitySpacingViolations (qualityDayIdxs dailyWorkouts)

/-- The empty week skeleton (`dailyWorkouts` initialisation of
`scheduleWeeklyWorkouts`): every day unworked, flagged as a rest day iff
it is in the configured rest-day list. -/
def initialDailyWorkouts (constraints : SchedulingConstraints) : List DailyWorkout :=
  DAYS_OF_WEEK.map (fun day =>
    (⟨day, none, constraints.restDays.contains day, none⟩ : DailyWorkout))

/-- Step 1 of `scheduleWeeklyWorkouts`: place the long run on the
configured long-run day (schedule and notes). -/
def scheduleLongRunStep (constraints : SchedulingConstraints)
    (workouts : List WorkoutBagEntry) : List DailyWorkout × List String :=
  let dailyWorkouts := initialDailyWorkouts constraints
  let longRunDayIndex := dayIndex constraints.longRunDay
  match workouts.find? (fun w => w.type == WorkoutType.long) with
  | some lw =>
    (dailyWorkouts.set longRunDayIndex
      ⟨constraints.longRunDay, some lw.workout, false, none⟩,
     ["Long run scheduled on " ++ dayName constraints.longRunDay])
  | none => (dailyWorkouts, [])

/-- Step 2 of `scheduleWeeklyWorkouts`: place the quality workout with
recovery spacing preference (schedule, notes and warnings). -/
def scheduleQualityStep (weekNumber : ℕ) (constraints : SchedulingConstraints)
    (workouts : List WorkoutBagEntry) (phase : TrainingPhase)
    (currentSchedule : List DailyWorkout) :
    List DailyWorkout × List String × List String :=
  let qualityRotation := getQualityWorkoutRotation weekNumber
  let longRunDayIndex := dayIndex constraints.longRunDay
  match workouts.find? (fun w => w.type == WorkoutType.quality) with
  | some qw =>
    match findOptimalQualityWorkoutDay constraints longRunDayIndex currentSchedule with
    | some qualityDayIndex =>
      let enhanced := enhanceQualityWorkout qw.workout qualityRotation.qualityType phase
      (currentSchedule.set qualityDayIndex
        ⟨dayAt qualityDayIndex, some enhanced, false, none⟩,
       [qualityTypeName qualityRotation.qualityType ++ " workout scheduled on " ++
         dayName (dayAt qualityDayIndex)],
       ([] : List String))
    | none =>
      (currentSchedule, [],
       ["Could not find optimal day for quality workout with adequate recovery"])
  | none => (currentSchedule, [], [])

/-- Step 3 of `scheduleWeeklyWorkouts`: distribute easy runs over the
remaining available days. -/
def scheduleEasyStep (constraints : SchedulingConstraints)
    (workouts : List WorkoutBagEntry) (currentSchedule : List DailyWorkout) :
    List DailyWorkout × List String :=
  let easyWorkouts := workouts.filter (fun w => w.type == WorkoutType.easy)
  let availableDays := getAvailableTrainingDays currentSchedule constraints
  let currentlyScheduled :=
    (currentSchedule.filter (fun day => !day.isRestDay && day.workout.isSome)).length
  let remainingWorkoutsNeeded : ℤ :=
    (constraints.trainingDaysPerWeek : ℤ) - currentlyScheduled
  distributeEasyWorkouts currentSchedule easyWorkouts availableDays
    remainingWorkoutsNeeded

/-- `scheduleWeeklyWorkouts(weekNumber, constraints, workouts, phase)`.
The source wraps the body in `try/catch`; nothing in the translated body
can throw, so the catch branch is dead and omitted. -/
def scheduleWeeklyWorkouts (weekNumber : ℕ) (constraints : SchedulingConstraints)
    (workouts : List WorkoutBagEntry) (phase : TrainingPhase) :
    WorkoutSchedulingResult :=
  let constraintValidation := validateSchedulingConstraints constraints
  if !constraintValidation.isValid then
    { success := false
      scheduledWeek := none
      errors := constraintValidation.errors
      warnings := constraintValidation.warnings }
  else
    let qualityRotation := getQualityWorkoutRotation weekNumber
    let afterLong := scheduleLongRunStep constraints workouts
    let afterQuality :=
      scheduleQualityStep weekNumber constraints workouts phase afterLong.1
    let afterEasy := scheduleEasyStep constraints workouts afterQuality.1
    -- Step 4: validate final schedule
    let constraintViolations := validateFinalSchedule afterEasy.1 constraints
    let scheduledWeek : ScheduledWeek :=
      { weekNumber := weekNumber
        dailyWorkouts := afterEasy.1
        qualityWorkoutRotation := qualityRotation
        schedulingNotes := afterLong.2 ++ afterQuality.2.1 ++ afterEasy.2
        constraintViolations := constraintViolations }
    { success := constraintViolations.isEmpty
      scheduledWeek := some scheduledWeek
      errors := constraintViolations
      warnings := constraintValidation.warnings ++ afterQuality.2.2 }

/-! ## Plan data model (`types/configuration.ts`, `types/trainingPlan.ts`) -/

/-- `DifficultyLevel`. -/
inductive DifficultyLevel
  | veryEasy
  | easy
  | moderate
  | hard
  | veryHard
deriving DecidableEq, Repr

/-- `PaceMethod`. -/
inductive PaceMethod
  | recentRace
  | timeTrial
  | currentPace
  | goal
  | fitnessLevel
deriving DecidableEq, Repr

/-- `PaceRange` from `types/configuration.ts`. -/
structure PaceRange where
  minPace : ℚ
  maxPace : ℚ
  targetPace : ℚ
deriving DecidableEq, Repr

/-- `TrainingPaces`. -/
structure TrainingPaces where
  recovery : PaceRange
  easy : PaceRange
  marathon : PaceRange
  threshold : PaceRange
  interval : PaceRange
  repetition : PaceRange
deriving DecidableEq, Repr

/-- `PaceData` (the untyped `inputData` field is not modelled; nothing in
the verified code reads it). -/
structure PaceData where
  method : String
  calculatedPaces : TrainingPaces
  vdot : Option ℚ := none
deriving DecidableEq, Repr

/-- `PlanConfiguration`. -/
structure PlanConfiguration where
  raceDistance : RaceDistance
  programLength : ℕ
  trainingDaysPerWeek : ℕ
  restDays : List DayOfWeek
  longRunDay : DayOfWeek
  deloadFrequency : ℕ
  userExperience : Option Experience := none
  difficulty : Option DifficultyLevel := none
  paceMethod : Option PaceMethod := none
  paceData : Option PaceData := none
deriving DecidableEq, Repr

/-- `WeeklyPlan` from `types/trainingPlan.ts`. -/
structure WeeklyPlan where
  weekNumber : ℕ
  phase : TrainingPhase
  isDeloadWeek : Bool
  days : List DailyWorkout
  weeklyVolume : ℚ
  weeklyVolumeKm : ℚ
  weeklyDuration : ℚ
  workoutCount : ℕ
  qualityWorkoutCount : ℕ
  notes : Option String := none
  weeklyFocus : Option String := none
deriving DecidableEq, Repr

/-- `WorkoutTypeDistribution`. -/
structure WorkoutTypeDistribution where
  easy : ℕ
  long : ℕ
  quality : ℕ
  rest : ℕ
deriving DecidableEq, Repr

/-- `PhaseDistribution` (weeks per phase in the plan metadata). -/
structure PhaseDistributionMeta where
  base : ℤ
  build : ℤ
  peak : ℤ
  taper : ℤ
deriving DecidableEq, Repr

/-- `PlanMetadata` (the `createdAt`/`lastModified` `Date` fields are not
modelled -- wall-clock values outside the computational pipeline). -/
structure PlanMetadata where
  totalMiles : ℚ
  totalKilometers : ℚ
  totalWorkouts : ℕ
  totalTrainingDays : ℕ
  totalRestDays : ℕ
  estimatedTimeCommitment : ℤ
  workoutTypeDistribution : WorkoutTypeDistribution
  phaseDistribution : PhaseDistributionMeta
  version : String
deriving DecidableEq, Repr

/-- `TrainingPlan`. -/
structure TrainingPlan where
  id : String
  configuration : PlanConfiguration
  weeks : List WeeklyPlan
  metadata : PlanMetadata
deriving DecidableEq, Repr

/-! ## Deload scheduling (`useDeloadScheduling.ts`) -/

/-- One entry of `DELOAD_MODIFICATION_RULES`. -/
structure DeloadModificationRule where
  volumeReduction : ℚ
  intensityAdjustment : ℚ
  durationReduction : ℚ
  skipProbability : ℚ
  rationale : String
deriving DecidableEq, Repr

/-- `DELOAD_MODIFICATION_RULES`. -/
def DELOAD_MODIFICATION_RULES : WorkoutType → DeloadModificationRule
  | .easy =>
    ⟨25/100, 0, 20/100, 0, "Maintain easy pace but reduce volume for recovery"⟩
  | .long =>
    ⟨30/100, 0, 25/100, 0,
     "Significant volume reduction while maintaining aerobic stimulus"⟩
  | .quality =>
    ⟨40/100, -(10/100), 35/100, 30/100,
     "Major reduction in quality work to promote recovery"⟩
  | .rest => ⟨0, 0, 0, 0, "Rest days remain unchanged during deload"⟩

/-- One entry of `PHASE_DELOAD_GUIDELINES`. -/
structure PhaseDeloadGuideline where
  allowDeload : Bool
  volumeReductionMin : ℚ
  volumeReductionMax : ℚ
  intensityMaintenance : Bool
  criticalWeeks : List ℤ
  notes : String
deriving DecidableEq, Repr

/-- `PHASE_DELOAD_GUIDELINES`. -/
def PHASE_DELOAD_GUIDELINES : TrainingPhase → PhaseDeloadGuideline
  | .base =>
    ⟨true, 20/100, 30/100, true, [],
     "Deload weeks are beneficial during base building for adaptation"⟩
  | .build =>
    ⟨true, 15/100, 25/100, true, [1, 2],
     "Careful deload timing to not disrupt lactate threshold development"⟩
  | .peak =>
    ⟨false, 10/100, 15/100, true, [1, 2, 3],
     "Avoid deloads during peak phase unless absolutely necessary"⟩
  | .taper =>
    ⟨false, 0, 0, true, [1, 2],
     "Taper phase already provides volume reduction - no additional deload needed"⟩

/-- `DeloadWorkoutModification`. -/
structure DeloadWorkoutModification where
  originalWorkout : Workout
  modifiedWorkout : Workout
  modificationType : String
  reductionAmount : ℚ
  rationale : String
deriving DecidableEq, Repr

/-- `DeloadWeekConfiguration`. -/
structure DeloadWeekConfiguration where
  weekNumber : ℕ
  isDeloadWeek : Bool
  volumeReduction : ℚ
  workoutModifications : List DeloadWorkoutModification
  phaseConflicts : List String
  schedulingNotes : List String
deriving DecidableEq, Repr

/-- Severity of a phase conflict. -/
inductive ConflictSeverity
  | low
  | medium
  | high
deriving DecidableEq, Repr

/-- `PhaseConflict`. -/
structure PhaseConflict where
  weekNumber : ℕ
  phase : TrainingPhase
  conflictType : String
  severity : ConflictSeverity
  recommendation : String
deriving DecidableEq, Repr

/-- `DeloadSchedulingResult`. -/
structure DeloadSchedulingResult where
  success : Bool
  deloadWeeks : List DeloadWeekConfiguration
  totalDeloadWeeks : ℕ
  phaseConflicts : List PhaseConflict
  warnings : List String
  recommendations : List String
deriving DecidableEq, Repr

/-- The string value of a training phase (used in interpolated text). -/
def phaseName : TrainingPhase → String
  | .base => "base"
  | .build => "build"
  | .peak => "peak"
  | .taper => "taper"

/-- `createDeloadWeekConfiguration(weekNumber, phase, config)`: middle of
the phase-specific reduction range; workout modifications are left empty
("placeholder" in the source). -/
def createDeloadWeekConfiguration (weekNumber : ℕ) (phase : TrainingPhase) :
    DeloadWeekConfiguration :=
  let phaseGuidelines := PHASE_DELOAD_GUIDELINES phase
  let volumeReduction := phaseGuidelines.volumeReductionMin +
    (phaseGuidelines.volumeReductionMax - phaseGuidelines.volumeReductionMin) * (1/2)
  let phaseConflicts :=
    if !phaseGuidelines.allowDeload then
      ["Deload week conflicts with " ++ phaseName phase ++
        " phase - consider rescheduling"]
    else []
  { weekNumber := weekNumber
    isDeloadWeek := true
    volumeReduction := volumeReduction
    workoutModifications := []
    phaseConflicts := phaseConflicts
    schedulingNotes := [phaseGuidelines.notes] }

/-- `checkPhaseConflict(weekNumber, phase, periodization)`. -/
def checkPhaseConflict (weekNumber : ℕ) (phase : TrainingPhase)
    (periodization : PhasePeriodization) : Option PhaseConflict :=
  match periodization.phases.find? (fun p => p.phase == phase) with
  | none => none
  | some phaseConfig =>
    let phaseGuidelines := PHASE_DELOAD_GUIDELINES phase
    let weekInPhase : ℤ := (weekNumber : ℤ) - phaseConfig.startWeek + 1
    let isCriticalWeek := phaseGuidelines.criticalWeeks.contains weekInPhase
    if !phaseGuidelines.allowDeload then
      some
        { weekNumber := weekNumber
          phase := phase
          conflictType :=
            if phase == TrainingPhase.peak then "peak_preparation"
            else "taper_disruption"
          severity := .high
          recommendation := "Consider moving deload to week " ++
            toString (weekNumber - 1) ++ " or " ++ toString (weekNumber + 1) ++
            " if possible" }
    else if isCriticalWeek then
      some
        { weekNumber := weekNumber
          phase := phase
          conflictType := "critical_build"
          severity := .medium
          recommendation := "Week " ++ toString weekNumber ++
            " is critical for " ++ phaseName phase ++
            " phase development - monitor recovery carefully" }
    else none

/-- The consecutive-deload-week scan in `validateDeloadScheduling`. -/
def consecutiveDeloadWarnings : List DeloadWeekConfiguration → List String
  | current :: next :: rest =>
    (if (next.weekNumber : ℤ) - current.weekNumber = 1 then
      ["Consecutive deload weeks (" ++ toString current.weekNumber ++ "-" ++
        toString next.weekNumber ++ ") detected",
       "Avoid consecutive deload weeks to maintain training rhythm"]
    else []) ++ consecutiveDeloadWarnings (next :: rest)
  | _ => []

/-- `validateDeloadScheduling(deloadWeeks, phaseConflicts, config)`,
returning warnings then recommendations (the consecutive-pair scan emits
its warning and recommendation together). -/
def validateDeloadScheduling (deloadWeeks : List DeloadWeekConfiguration)
    (phaseConflicts : List PhaseConflict) (config : PlanConfiguration) :
    List String × List String :=
  let deloadShare : ℚ := (deloadWeeks.length : ℚ) / (config.programLength : ℚ)
  let warnings :=
    (if deloadShare < 15/100 then
      ["Low deload frequency may not provide adequate recovery"]
    else []) ++
    (if 30/100 < deloadShare then
      ["High deload frequency may limit training stimulus"]
    else []) ++
    consecutiveDeloadWarnings deloadWeeks ++
    (let highSeverityConflicts := phaseConflicts.filter
        (fun c => c.severity == ConflictSeverity.high)
     if highSeverityConflicts.length ≠ 0 then
      [toString highSeverityConflicts.length ++
        " high-priority phase conflicts detected"]
     else [])
  let recommendations :=
    (if deloadShare < 15/100 then
      ["Consider more frequent deload weeks for better adaptation"]
    else []) ++
    (if 30/100 < deloadShare then
      ["Consider reducing deload frequency to maintain training load"]
    else []) ++
    (if (phaseConflicts.filter (fun c => c.severity == ConflictSeverity.high)).length ≠ 0 then
      ["Consider adjusting deload frequency or program length to avoid critical phase disruption"]
    else []) ++
    (if config.raceDistance == RaceDistance.marathon && config.deloadFrequency == 4 then
      ["Consider 3-week deload frequency for marathon training due to higher volume stress"]
    else []) ++
    (if config.raceDistance == RaceDistance.fiveK && config.deloadFrequency == 3 then
      ["4-week deload frequency may be sufficient for 5K training"]
    else [])
  (warnings, recommendations)

/-- `scheduleDeloadWeeks(config)`. -/
def scheduleDeloadWeeks (config : PlanConfiguration) : DeloadSchedulingResult :=
  let periodization :=
    calculatePhasePeriodization config.programLength config.raceDistance
  let weekNumbers := (List.range config.programLength).map (· + 1)
  let deloadWeeks := weekNumbers.filterMap (fun week =>
    if isDeloadWeekNumber week config.deloadFrequency then
      some (createDeloadWeekConfiguration week (getPhaseForWeek week periodization))
    else none)
  let phaseConflicts := weekNumbers.filterMap (fun week =>
    if isDeloadWeekNumber week config.deloadFrequency then
      checkPhaseConflict week (getPhaseForWeek week periodization) periodization
    else none)
  let highConflictWarnings := phaseConflicts.filterMap (fun conflict =>
    if conflict.severity == ConflictSeverity.high then
      some ("Week " ++ toString conflict.weekNumber ++
        ": Deload conflicts with critical " ++ phaseName conflict.phase ++
        " phase training")
    else none)
  let validation := validateDeloadScheduling deloadWeeks phaseConflicts config
  { success :=
      (phaseConflicts.filter (fun c => c.severity == ConflictSeverity.high)).length = 0
    deloadWeeks := deloadWeeks
    totalDeloadWeeks := deloadWeeks.length
    phaseConflicts := phaseConflicts
    warnings := highConflictWarnings ++ validation.1
    recommendations := validation.2 }

/-- `applyDeloadToWeeklyPlan(weeklyPlan, deloadConfig)`: scale the weekly
volume totals by `(1 - reduction)` and the weekly duration by
`(1 - reduction * 0.8)`, mark the week as a deload week and rewrite its
focus/notes text; every other field (in particular `days`) is kept. -/
def applyDeloadToWeeklyPlan (weeklyPlan : WeeklyPlan)
    (deloadConfig : DeloadWeekConfiguration) : WeeklyPlan :=
  { weeklyPlan with
    weeklyVolume :=
      ((jsRound (weeklyPlan.weeklyVolume * (1 - deloadConfig.volumeReduction)) : ℤ) : ℚ)
    weeklyVolumeKm :=
      ((jsRound (weeklyPlan.weeklyVolumeKm * (1 - deloadConfig.volumeReduction)) : ℤ) : ℚ)
    weeklyDuration :=
      ((jsRound (weeklyPlan.weeklyDuration *
        (1 - deloadConfig.volumeReduction * (8/10))) : ℤ) : ℚ)
    isDeloadWeek := true
    weeklyFocus := some "Deload Week - Recovery and Adaptation"
    notes := some ("Volume reduced by " ++
      toString (jsRound (deloadConfig.volumeReduction * 100)) ++
      "% for recovery. " ++ String.intercalate " " deloadConfig.schedulingNotes) }

/-! ## Plan generation orchestrator (`usePlanGenerator.ts`, steps 5-8)

The orchestrator composes: per-week scheduling (`optimizeWeeklySchedules`),
deload application (`applyDeloadWeeks`), plan assembly
(`createFinalTrainingPlan`) and whole-plan validation
(`validateCompletePlan`).  The weekly workout distributions (step 4
output) are taken as input here; `generatePlanId` and the `Date`-valued
metadata are impure and modelled by a fixed non-empty id string (only its
JavaScript truthiness is ever read). -/

/-- `WeeklyWorkoutDistribution` (from `useWorkoutDistribution.ts`). -/
structure WeeklyWorkoutDistribution where
  totalWorkouts : ℕ
  workoutCounts : WorkoutTypeDistribution
  dailyWorkouts : List DailyWorkout
deriving DecidableEq, Repr

/-- One element of the step-4 result list handed to
`optimizeWeeklySchedules`. -/
structure WeeklyDistributionEntry where
  weekNumber : ℕ
  phase : TrainingPhase
  distribution : WeeklyWorkoutDistribution
deriving DecidableEq, Repr

/-- The conversion of a distribution into the scheduler's workout bag
performed inside `optimizeWeeklySchedules`: keep non-rest days carrying a
workout and pair each workout with its own `type` field. -/
def distributionWorkouts (distribution : WeeklyWorkoutDistribution) :
    List WorkoutBagEntry :=
  distribution.dailyWorkouts.filterMap (fun day =>
    if day.isRestDay then none
    else day.workout.map (fun w => ⟨w.type, w⟩))

/-- `createSchedulingConstraints(config)`. -/
def createSchedulingConstraints (config : PlanConfiguration) :
    SchedulingConstraints :=
  { restDays := config.restDays
    longRunDay := config.longRunDay
    trainingDaysPerWeek := config.trainingDaysPerWeek
    minimumRecoveryHours := 48 }

/-- `getWeeklyFocus(phase, weekNumber, periodization)`. -/
def getWeeklyFocus (phase : TrainingPhase)
    (periodization : PhasePeriodization) : String :=
  match periodization.phases.find? (fun p => p.phase == phase) with
  | some phaseConfig => phaseConfig.focus
  | none => phaseName phase ++ " phase training"

/-- `calculateWeeklyTotals(weeklyPlan)`: sum distance/duration over the
scheduled days and fill the three volume fields (`weeklyVolume` is the
kilometre total converted to miles). -/
def calculateWeeklyTotals (weeklyPlan : WeeklyPlan) : WeeklyPlan :=
  let totalDistance := (weeklyPlan.days.map (fun day =>
    if !day.isRestDay && day.workout.isSome then
      (day.workout.elim 0 (fun w => w.distance.getD 0))
    else 0)).sum
  let totalDuration := (weeklyPlan.days.map (fun day =>
    if !day.isRestDay && day.workout.isSome then
      (day.workout.elim 0 (fun w => w.duration))
    else 0)).sum
  { weeklyPlan with
    weeklyVolumeKm := totalDistance
    weeklyVolume := totalDistance * (621371/1000000)
    weeklyDuration := totalDuration }

/-- Result record of one orchestrator step (`success`, messages and the
step value). -/
structure StepResult (α : Type) where
  success : Bool
  errors : List String
  warnings : List String
  result : α
deriving Repr

/-- The per-week body of the `optimizeWeeklySchedules` loop: schedule the
week, demote a scheduling failure to a warning, and build the
`WeeklyPlan` record (a failed week keeps an empty `days` list). -/
def scheduleWeekEntry (constraints : SchedulingConstraints)
    (periodization : PhasePeriodization) (weekData : WeeklyDistributionEntry) :
    WeeklyPlan × List String :=
  let workouts := distributionWorkouts weekData.distribution
  let schedulingResult :=
    scheduleWeeklyWorkouts weekData.weekNumber constraints workouts weekData.phase
  let failWarnings :=
    if !schedulingResult.success then
      ["Week " ++ toString weekData.weekNumber ++ ": " ++
        String.intercalate ", " schedulingResult.errors]
    else []
  let weeklyPlan : WeeklyPlan :=
    { weekNumber := weekData.weekNumber
      phase := weekData.phase
      isDeloadWeek := false
      days := schedulingResult.scheduledWeek.elim [] (·.dailyWorkouts)
      weeklyVolume := 0
      weeklyVolumeKm := 0
      weeklyDuration := 0
      workoutCount := weekData.distribution.totalWorkouts
      qualityWorkoutCount := weekData.distribution.workoutCounts.quality
      weeklyFocus := some (getWeeklyFocus weekData.phase periodization) }
  (calculateWeeklyTotals weeklyPlan, failWarnings ++ schedulingResult.warnings)

/-- `optimizeWeeklySchedules(config, weeklyDistributions, periodization)`:
schedule every week via `scheduleWeekEntry`.  The step itself always
reports success. -/
def optimizeWeeklySchedules (config : PlanConfiguration)
    (weeklyDistributions : List WeeklyDistributionEntry)
    (periodization : PhasePeriodization) : StepResult (List WeeklyPlan) :=
  let constraints := createSchedulingConstraints config
  let results := weeklyDistributions.map (scheduleWeekEntry constraints periodization)
  { success := true
    errors := []
    warnings := (results.map (·.2)).flatten
    result := results.map (·.1) }

/-- The per-week body of the `applyDeloadWeeks` map: apply
`applyDeloadToWeeklyPlan` when the week number matches a scheduled deload
week, otherwise keep the week. -/
def applyDeloadToPlanWeek (deloadWeeks : List DeloadWeekConfiguration)
    (plan : WeeklyPlan) : WeeklyPlan :=
  match deloadWeeks.find? (fun dw => dw.weekNumber == plan.weekNumber) with
  | some deloadConfig => applyDeloadToWeeklyPlan plan deloadConfig
  | none => plan

/-- `applyDeloadWeeks(config, weeklyPlans)`: compute the deload schedule,
drop deload weeks carrying a high-severity phase conflict, and apply
`applyDeloadToWeeklyPlan` to each matching already-scheduled week. -/
def applyDeloadWeeks (config : PlanConfiguration) (weeklyPlans : List WeeklyPlan) :
    StepResult (List WeeklyPlan) :=
  let deloadSchedulingResult := scheduleDeloadWeeks config
  let hasHighSeverityConflicts := deloadSchedulingResult.phaseConflicts.any
    (fun conflict => conflict.severity == ConflictSeverity.high)
  let deloadWeeks :=
    if hasHighSeverityConflicts then
      deloadSchedulingResult.deloadWeeks.filter (fun deloadWeek =>
        !deloadSchedulingResult.phaseConflicts.any (fun conflict =>
          conflict.weekNumber == deloadWeek.weekNumber &&
            conflict.severity == ConflictSeverity.high))
    else deloadSchedulingResult.deloadWeeks
  let modifiedPlans := weeklyPlans.map (applyDeloadToPlanWeek deloadWeeks)
  { success := true
    errors := []
    warnings := deloadSchedulingResult.warnings
    result := modifiedPlans }

/-- Workout-type totals over all weeks
(`calculateWorkoutTypeDistribution`). -/
def calculateWorkoutTypeDistribution (weeklyPlans : List WeeklyPlan) :
    WorkoutTypeDistribution :=
  let count (t : WorkoutType) : ℕ :=
    (weeklyPlans.map (fun week =>
      (week.days.filter (fun day =>
        !day.isRestDay && day.workout.elim false (fun w => w.type == t))).length)).sum
  { easy := count .easy
    long := count .long
    quality := count .quality
    rest := (weeklyPlans.map (fun week =>
      (week.days.filter (fun day => day.isRestDay)).length)).sum }

/-- `calculateEstimatedTimeCommitment(weeklyPlans)`: rounded average
weekly duration. -/
def calculateEstimatedTimeCommitment (weeklyPlans : List WeeklyPlan) : ℤ :=
  jsRound ((weeklyPlans.map (·.weeklyDuration)).sum / (weeklyPlans.length : ℚ))

/-- `generatePlanId()` builds an id from `Date.now()` and
`Math.random()`; only its non-emptiness is ever observed, so it is
modelled by a fixed non-empty string. -/
def generatePlanId : String := "plan_0_000000000"

/-- `createFinalTrainingPlan(config, weeklyPlans, periodization)`. -/
def createFinalTrainingPlan (config : PlanConfiguration)
    (weeklyPlans : List WeeklyPlan) (periodization : PhasePeriodization) :
    StepResult TrainingPlan :=
  let totalKilometers := (weeklyPlans.map (·.weeklyVolumeKm)).sum
  let plan : TrainingPlan :=
    { id := generatePlanId
      configuration := config
      weeks := weeklyPlans
      metadata :=
        { totalMiles := totalKilometers * (621371/1000000)
          totalKilometers := totalKilometers
          totalWorkouts := (weeklyPlans.map (·.workoutCount)).sum
          totalTrainingDays := (weeklyPlans.map (fun week =>
            (week.days.filter (fun day => !day.isRestDay)).length)).sum
          totalRestDays := (weeklyPlans.map (fun week =>
            (week.days.filter (fun day => day.isRestDay)).length)).sum
          estimatedTimeCommitment := calculateEstimatedTimeCommitment weeklyPlans
          workoutTypeDistribution := calculateWorkoutTypeDistribution weeklyPlans
          phaseDistribution :=
            { base := ((periodization.phases.find? (fun p => p.phase == TrainingPhase.base)).map
                (·.durationWeeks)).getD 0
              build := ((periodization.phases.find? (fun p => p.phase == TrainingPhase.build)).map
                (·.durationWeeks)).getD 0
              peak := ((periodization.phases.find? (fun p => p.phase == TrainingPhase.peak)).map
                (·.durationWeeks)).getD 0
              taper := ((periodization.phases.find? (fun p => p.phase == TrainingPhase.taper)).map
                (·.durationWeeks)).getD 0 }
          version := "1.0.0" } }
  { success := true, errors := [], warnings := [], result := plan }

/-- The pairwise scan of `validateProgressionPrinciples`: a finding for
every adjacent pair of non-deload weeks whose relative `weeklyVolumeKm`
increase strictly exceeds `0.1`. -/
def progressionFindings : List WeeklyPlan → List String
  | previousWeek :: currentWeek :: rest =>
    (if !currentWeek.isDeloadWeek && !previousWeek.isDeloadWeek then
      let increase := (currentWeek.weeklyVolumeKm - previousWeek.weeklyVolumeKm) /
        previousWeek.weeklyVolumeKm
      if 1/10 < increase then
        ["Week " ++ toString currentWeek.weekNumber ++ ": " ++
          toString (jsRound (increase * 100)) ++
          "% volume increase exceeds 10% rule"]
      else []
    else []) ++ progressionFindings (currentWeek :: rest)
  | _ => []

/-- `validateProgressionPrinciples(plan, warnings)` (the warnings it
appends). -/
def validateProgressionPrinciples (plan : TrainingPlan) : List String :=
  progressionFindings plan.weeks

/-- `validate80_20Rule(plan, warnings)` (the warnings it appends). -/
def validate80_20Rule (plan : TrainingPlan) : List String :=
  let totalWorkouts := plan.metadata.totalWorkouts
  let qualityWorkouts := plan.metadata.workoutTypeDistribution.quality
  let qualityPercentage := ((qualityWorkouts : ℚ) / (totalWorkouts : ℚ)) * 100
  if 25 < qualityPercentage then
    ["Quality workouts represent " ++ toString (jsRound qualityPercentage) ++
      "% of total workouts, exceeding recommended 20%"]
  else []

/-- `validateCompletePlan(plan)`: structural errors (incomplete plan,
wrong week count, weeks without 7 days) block; per-week training-day
mismatches, progression findings and 80/20 findings are warnings. -/
def validateCompletePlan (plan : TrainingPlan) :
    StepResult Unit :=
  let structureErrors :=
    if plan.id.isEmpty then ["Plan structure is incomplete"] else []
  let weekCountErrors :=
    if plan.weeks.length ≠ plan.configuration.programLength then
      ["Plan has " ++ toString plan.weeks.length ++
        " weeks but configuration specifies " ++
        toString plan.configuration.programLength]
    else []
  let perWeek := plan.weeks.map (fun week =>
    ((if week.days.length ≠ 7 then
      ["Week " ++ toString week.weekNumber ++ " does not have 7 days"]
    else []),
     (let trainingDays := (week.days.filter (fun day => !day.isRestDay)).length
      if trainingDays ≠ plan.configuration.trainingDaysPerWeek then
        ["Week " ++ toString week.weekNumber ++ " has " ++ toString trainingDays ++
          " training days, expected " ++
          toString plan.configuration.trainingDaysPerWeek]
      else [])))
  let errors := structureErrors ++ weekCountErrors ++ (perWeek.map (·.1)).flatten
  let warnings := (perWeek.map (·.2)).flatten ++
    validateProgressionPrinciples plan ++ validate80_20Rule plan
  { success := errors.isEmpty
    errors := errors
    warnings := warnings
    result := () }

/-- `PlanGenerationResult`. -/
structure PlanGenerationResult where
  success : Bool
  plan : Option TrainingPlan
  errors : List String
  warnings : List String
deriving Repr

/-- Steps 5-8 of `generatePlan` (scheduling onwards), starting from the
step-4 distribution list.  Steps 5-7 cannot fail in the translation
(their catch branches are dead), so the only failure exit is the step-8
whole-plan validation, which returns `success = false` and a `null`
plan. -/
def generatePlanTail (config : PlanConfiguration)
    (weeklyDistributions : List WeeklyDistributionEntry) : PlanGenerationResult :=
  let periodization :=
    calculatePhasePeriodization config.programLength config.raceDistance
  let schedulesStep := optimizeWeeklySchedules config weeklyDistributions periodization
  let deloadStep := applyDeloadWeeks config schedulesStep.result
  let finalPlanStep := createFinalTrainingPlan config deloadStep.result periodization
  let finalPlan := finalPlanStep.result
  let planValidationStep := validateCompletePlan finalPlan
  if !planValidationStep.success then
    { success := false
      plan := none
      errors := planValidationStep.errors
      warnings := schedulesStep.warnings ++ deloadStep.warnings ++
        planValidationStep.warnings }
  else
    { success := true
      plan := some finalPlan
      errors := []
      warnings := schedulesStep.warnings ++ deloadStep.warnings ++
        planValidationStep.warnings }

/-! ## Plan regeneration (`usePlanRegeneration.ts`) -/

/-- The configuration fields diffed by `analyzeConfigurationChanges`
(the ten-element `fields` list). -/
inductive ConfigField
  | raceDistance
  | programLength
  | trainingDaysPerWeek
  | restDays
  | longRunDay
  | deloadFrequency
  | userExperience
  | difficulty
  | paceMethod
  | paceData
deriving DecidableEq, Repr

/-- Change impact levels. -/
inductive ChangeImpact
  | low
  | medium
  | high
deriving DecidableEq, Repr

/-- `assessChangeImpact(field, oldValue, newValue)`.  The source takes the
old/new values as `unknown` and reads them (as numbers) only in the
`trainingDaysPerWeek` branch; the embedding therefore types them as the
numbers of that branch, ignored by every other branch. -/
def assessChangeImpact (field : ConfigField) (oldValue newValue : ℚ) :
    ChangeImpact :=
  match field with
  | .raceDistance => .high
  | .programLength => .high
  | .trainingDaysPerWeek => if 1 < |newValue - oldValue| then .high else .medium
  | .deloadFrequency => .medium
  | .userExperience => .medium
  | .difficulty => .medium
  | .restDays => .medium
  | .longRunDay => .medium
  | .paceMethod => .low
  | .paceData => .low

/-- `ConfigurationChange` (old/new values typed as in
`assessChangeImpact`). -/
structure ConfigurationChange where
  field : ConfigField
  oldValue : ℚ
  newValue : ℚ
  impact : ChangeImpact
deriving DecidableEq, Repr

/-- `RegenerationOptions` (the two preservation flags play no role in the
strategy choice and are omitted). -/
structure RegenerationOptions where
  forceFullRegeneration : Bool
deriving DecidableEq, Repr

/-- Regeneration strategy depth. -/
inductive RegenType
  | minimal
  | incremental
  | full
deriving DecidableEq, Repr

/-- `determineRegenerationStrategy(changes, options)`. -/
def determineRegenerationStrategy (changes : List ConfigurationChange)
    (options : RegenerationOptions) : RegenType × String :=
  if options.forceFullRegeneration then
    (.full, "Full regeneration requested")
  else if changes.length = 0 then
    (.minimal, "No configuration changes detected")
  else if changes.any (fun change => change.impact == ChangeImpact.high) then
    (.full, "High impact changes detected")
  else if 2 < (changes.filter (fun change => change.impact == ChangeImpact.medium)).length then
    (.full, "Multiple medium impact changes detected")
  else if 0 < (changes.filter (fun change => change.impact == ChangeImpact.medium)).length ∨
      3 < changes.length then
    (.incremental, "Medium impact changes can be handled incrementally")
  else
    (.minimal, "Only low impact changes detected")

/-! ## Theorems -/

/-- Evaluation bridge: the rational floor of `W * (a / b)` is the integer
division `(W * a) / b` (used to evaluate the periodization floors in the
kernel). -/
theorem floor_natCast_mul_div (W a b : ℕ) :
    ⌊(W : ℚ) * ((a : ℚ) / (b : ℚ))⌋ = ((W * a : ℕ) : ℤ) / (b : ℤ) := by
  rw [mul_div_assoc', ← Nat.cast_mul]
  have := Rat.floor_intCast_div_natCast ((W * a : ℕ) : ℤ) b
  simpa using this

/-- C1: for every race distance in {5K, 10K, Half Marathon, Marathon} and
every program length `totalWeeks` within the valid bounds 6-24,
`calculatePhasePeriodization(totalWeeks, raceDistance)` returns exactly
four phases in the order base, build, peak, taper that are contiguous and
non-overlapping (the first starts at week 1, each phase covers
`[startWeek, startWeek + durationWeeks - 1]`, each subsequent phase
starts the week after the previous phase ends, the last ends at week
`totalWeeks`) and whose `durationWeeks` sum exactly to `totalWeeks`. -/
theorem calculatePhasePeriodization_phases_ok (rd : RaceDistance) (W : ℕ)
    (hlo : 6 ≤ W) (hhi : W ≤ 24) :
    (calculatePhasePeriodization W rd).phases.map PhaseConfiguration.phase =
      [.base, .build, .peak, .taper] ∧
    phasesContiguousFrom 1 (W : ℤ) (calculatePhasePeriodization W rd).phases = true ∧
    ((calculatePhasePeriodization W rd).phases.map
      PhaseConfiguration.durationWeeks).sum = (W : ℤ) := by
  interval_cases W <;> cases rd <;>
    simp only [calculatePhasePeriodization, shortProgramDurations, normalDurations,
      PHASE_DISTRIBUTION_BY_RACE, MINIMUM_PHASE_DURATIONS,
      show ((3:ℚ)/10) = ((3:ℕ):ℚ)/((10:ℕ):ℚ) by norm_num,
      show ((4:ℚ)/10) = ((4:ℕ):ℚ)/((10:ℕ):ℚ) by norm_num,
      show ((2:ℚ)/10) = ((2:ℕ):ℚ)/((10:ℕ):ℚ) by norm_num,
      show ((1:ℚ)/10) = ((1:ℕ):ℚ)/((10:ℕ):ℚ) by norm_num,
      show ((35:ℚ)/100) = ((35:ℕ):ℚ)/((100:ℕ):ℚ) by norm_num,
      show ((45:ℚ)/100) = ((45:ℕ):ℚ)/((100:ℕ):ℚ) by norm_num,
      show ((25:ℚ)/100) = ((25:ℕ):ℚ)/((100:ℕ):ℚ) by norm_num,
      floor_natCast_mul_div] <;>
    decide

/-- Witness for C1 at a 12-week marathon program. -/
theorem calculatePhasePeriodization_phases_ok_witness :
    (calculatePhasePeriodization 12 .marathon).phases.map PhaseConfiguration.phase =
      [.base, .build, .peak, .taper] ∧
    phasesContiguousFrom 1 (12 : ℤ) (calculatePhasePeriodization 12 .marathon).phases = true ∧
    ((calculatePhasePeriodization 12 .marathon).phases.map
      PhaseConfiguration.durationWeeks).sum = (12 : ℤ) :=
  calculatePhasePeriodization_phases_ok .marathon 12 (by norm_num) (by norm_num)

/-- `Math.round` is within `1/2` of its argument. -/
theorem jsRound_close (x : ℚ) : |(jsRound x : ℚ) - x| ≤ 1/2 := by
  rw [abs_le]
  constructor
  · have h := Int.lt_floor_add_one (x + 1/2)
    rw [jsRound]
    linarith
  · have h := Int.floor_le (x + 1/2)
    rw [jsRound]
    linarith

theorem isDeload_iff {w c : ℕ} :
    isDeloadWeekNumber w c = true ↔ w ≠ 1 ∧ w % c = 0 := by
  unfold isDeloadWeekNumber
  split_ifs with h
  · simp [h]
  · simp [h]

theorem isDeload_false_iff {w c : ℕ} :
    isDeloadWeekNumber w c = false ↔ w = 1 ∨ w % c ≠ 0 := by
  rw [← Bool.not_eq_true, isDeload_iff]
  tauto

theorem consecF_one (c : ℕ) : consecF c 1 = 0 := by simp [consecF]

theorem consecF_two (c : ℕ) (hc : c = 3 ∨ c = 4) : consecF c 2 = 0 := by
  rcases hc with rfl | rfl <;> simp [consecF]

theorem consecF_after_deload (c w : ℕ) (hc : c = 3 ∨ c = 4) (hw : 1 ≤ w)
    (hd : isDeloadWeekNumber w c = true) : consecF c (w + 1) = 0 := by
  rw [isDeload_iff] at hd
  rcases hc with rfl | rfl <;> (unfold consecF; split_ifs <;> omega)

theorem consecF_prog (c w : ℕ) (hc : c = 3 ∨ c = 4) (hw : 2 ≤ w)
    (h1 : isDeloadWeekNumber w c = false)
    (h2 : isDeloadWeekNumber (w - 1) c = false) :
    consecF c (w + 1) = consecF c w + 1 ∧ consecF c w ≤ 1 := by
  rw [isDeload_false_iff] at h1 h2
  rcases hc with rfl | rfl <;> (unfold consecF; split_ifs <;> omega)

theorem consecF_skip (c w : ℕ) (hc : c = 3 ∨ c = 4) (hw : 2 ≤ w)
    (h1 : isDeloadWeekNumber w c = false)
    (h2 : isDeloadWeekNumber (w - 1) c = true) :
    consecF c (w + 1) = consecF c w := by
  rw [isDeload_false_iff] at h1
  rw [isDeload_iff] at h2
  rcases hc with rfl | rfl <;> (unfold consecF; split_ifs <;> omega)

theorem deload_prev_not_deload (c w : ℕ) (hc : c = 3 ∨ c = 4) (hw : 1 ≤ w)
    (hd : isDeloadWeekNumber w c = true) :
    isDeloadWeekNumber (w - 1) c = false := by
  rw [isDeload_iff] at hd
  rw [isDeload_false_iff]
  rcases hc with rfl | rfl <;> omega

theorem jsRound_le (x : ℚ) : (jsRound x : ℚ) ≤ x + 1/2 := Int.floor_le _

theorem lt_jsRound (x : ℚ) : x - 1/2 < (jsRound x : ℚ) := by
  have h := Int.lt_floor_add_one (x + 1/2)
  rw [jsRound]
  linarith

theorem int_le_jsRound {n : ℤ} {x : ℚ} (h : (n : ℚ) ≤ x + 1/2) : n ≤ jsRound x :=
  Int.le_floor.mpr h

theorem jsRound_intCast (n : ℤ) : jsRound (n : ℚ) = n := by
  have h1 : n ≤ jsRound (n : ℚ) := Int.le_floor.mpr (by linarith)
  have h2 : jsRound (n : ℚ) < n + 1 := by
    rw [jsRound]
    exact Int.floor_lt.mpr (by push_cast; linarith)
  omega

theorem jsRound_le_int {n : ℤ} {x : ℚ} (h : x ≤ (n : ℚ)) : jsRound x ≤ n := by
  have h2 : jsRound x ≤ jsRound (n : ℚ) := Int.floor_le_floor (by linarith)
  rw [jsRound_intCast] at h2
  exact h2

theorem deloadReductionDraw_bounds (rand : ℕ → ℚ) (hrand : ValidRandomStream rand)
    (ri : ℕ) : 1/5 ≤ deloadReductionDraw rand ri ∧ deloadReductionDraw rand ri < 3/10 := by
  obtain ⟨h0, h1⟩ := hrand ri
  unfold deloadReductionDraw DELOAD_REDUCTION_MIN DELOAD_REDUCTION_MAX
  constructor <;> nlinarith

theorem progressionStep_spec (M q : ℚ) (consec : ℕ)
    (hcons : consec < PLATEAU_WEEKS) (hq : 0 < q) (hqM : q ≤ M) :
    (progressionStep M q consec).1 ≤ q * (1 + SAFE_WEEKLY_INCREASE) ∧
    q ≤ (progressionStep M q consec).1 ∧
    (progressionStep M q consec).1 ≤ M ∧
    0 ≤ (progressionStep M q consec).2.1 ∧
    (progressionStep M q consec).2.1 ≤ SAFE_WEEKLY_INCREASE := by
  have hcons2 : ¬ (PLATEAU_WEEKS ≤ consec) := by omega
  have hagg : ¬ (AGGRESSIVE_THRESHOLD < SAFE_WEEKLY_INCREASE) := by
    norm_num [AGGRESSIVE_THRESHOLD, SAFE_WEEKLY_INCREASE]
  simp only [progressionStep]
  rw [if_neg hcons2, if_neg hagg]
  have hsafe : SAFE_WEEKLY_INCREASE = 8/100 := rfl
  split_ifs with hcap <;> dsimp only
  · refine ⟨by linarith [hcap.le], hqM, le_refl _, ?_, ?_⟩
    · exact div_nonneg (by linarith) hq.le
    · rw [div_le_iff₀ hq, hsafe] at *
      nlinarith
  · refine ⟨le_refl _, by rw [hsafe]; nlinarith, by linarith [not_lt.mp hcap],
      by rw [hsafe]; norm_num, le_refl _⟩

theorem base_le_max (rd : RaceDistance) (exp : Experience) :
    24 ≤ BASE_WEEKLY_DISTANCE rd exp ∧
      BASE_WEEKLY_DISTANCE rd exp ≤ MAX_WEEKLY_DISTANCE rd exp := by
  cases rd <;> cases exp <;> exact ⟨by decide, by decide⟩

theorem weeklyVolumesAux_deload (c : ℕ) (rand : ℕ → ℚ) (M : ℚ)
    (n w : ℕ) (cur : ℚ) (consec ri : ℕ) (prev : Option WeeklyVolumeCalculation)
    (hd : isDeloadWeekNumber w c = true) :
    weeklyVolumesAux c rand M (n + 1) w cur consec ri prev =
      deloadWeekEntry rand w cur ri ::
        weeklyVolumesAux c rand M n (w + 1) cur 0 (ri + 1)
          (some (deloadWeekEntry rand w cur ri)) := by
  simp only [weeklyVolumesAux]
  rw [if_pos hd]

theorem weeklyVolumesAux_prog (c : ℕ) (rand : ℕ → ℚ) (M : ℚ)
    (n w : ℕ) (cur : ℚ) (consec ri : ℕ) (prev : Option WeeklyVolumeCalculation)
    (hd : ¬ (isDeloadWeekNumber w c = true))
    (hp : 1 < w ∧ ¬(prev.elim false (·.isDeloadWeek) = true)) :
    weeklyVolumesAux c rand M (n + 1) w cur consec ri prev =
      progressEntry M prev cur consec w ::
        weeklyVolumesAux c rand M n (w + 1)
          (progressionStep M (previousVolumeOf prev cur) consec).1
          (consec + 1) ri (some (progressEntry M prev cur consec w)) := by
  simp only [weeklyVolumesAux]
  rw [if_neg hd, if_pos hp]

theorem weeklyVolumesAux_steady (c : ℕ) (rand : ℕ → ℚ) (M : ℚ)
    (n w : ℕ) (cur : ℚ) (consec ri : ℕ) (prev : Option WeeklyVolumeCalculation)
    (hd : ¬ (isDeloadWeekNumber w c = true))
    (hp : ¬(1 < w ∧ ¬(prev.elim false (·.isDeloadWeek) = true))) :
    weeklyVolumesAux c rand M (n + 1) w cur consec ri prev =
      steadyEntry w cur ::
        weeklyVolumesAux c rand M n (w + 1) cur consec ri
          (some (steadyEntry w cur)) := by
  simp only [weeklyVolumesAux]
  rw [if_neg hd, if_neg hp]

theorem weeklyVolumesAux_invariant (c : ℕ) (hc : c = 3 ∨ c = 4)
    (rand : ℕ → ℚ) (hrand : ValidRandomStream rand)
    (S M : ℤ) (hS : 24 ≤ S) :
    ∀ (r w : ℕ) (cur : ℚ) (consec ri : ℕ) (prev : Option WeeklyVolumeCalculation),
      1 ≤ w → (S : ℚ) ≤ cur → cur ≤ (M : ℚ) →
      consec = consecF c w →
      PrevState c S M w cur prev →
      (∀ e ∈ weeklyVolumesAux c rand (M : ℚ) r w cur consec ri prev,
          VolumeEntryOK S M e ∧ e.isDeloadWeek = isDeloadWeekNumber e.weekNumber c) ∧
      List.Chain' VolumePairOK (weeklyVolumesAux c rand (M : ℚ) r w cur consec ri prev) ∧
      (∀ ep h, prev = some ep →
        (weeklyVolumesAux c rand (M : ℚ) r w cur consec ri prev).head? = some h →
        VolumePairOK ep h) := by
  have h24 : (24 : ℚ) ≤ (S : ℚ) := by exact_mod_cast hS
  intro r
  induction r with
  | zero =>
    intro w cur consec ri prev hw hl hr hcons hprev
    refine ⟨?_, ?_, ?_⟩
    · intro e he
      simp only [weeklyVolumesAux] at he
      exact absurd he (List.not_mem_nil e)
    · simp only [weeklyVolumesAux]
      exact List.chain'_nil
    · intro ep h hep hh
      simp only [weeklyVolumesAux, List.head?_nil] at hh
      exact Option.noConfusion hh
  | succ n ih =>
    intro w cur consec ri prev hw hl hr hcons hprev
    by_cases hd : isDeloadWeekNumber w c = true
    · -- deload week: the previous week exists and was not a deload week
      obtain ⟨e, rfl⟩ : ∃ e, prev = some e := by
        cases prev with
        | none =>
          exfalso
          have hw1 : w = 1 := hprev
          rw [hw1, isDeload_iff] at hd
          exact hd.1 rfl
        | some e => exact ⟨e, rfl⟩
      obtain ⟨hw2, hflag, h17, heM, hnd⟩ := hprev
      have hpf : isDeloadWeekNumber (w - 1) c = false :=
        deload_prev_not_deload c w hc hw hd
      have hef : e.isDeloadWeek = false := by rw [hflag]; exact hpf
      obtain ⟨hadj, hSe⟩ := hnd hef
      obtain ⟨hr1, hr2⟩ := deloadReductionDraw_bounds rand hrand ri
      have hcur24 : (24 : ℚ) ≤ cur := le_trans h24 hl
      have hprod1 : (1/5) * cur ≤ deloadReductionDraw rand ri * cur :=
        mul_le_mul_of_nonneg_right hr1 (by linarith)
      have hprod2 : deloadReductionDraw rand ri * cur ≤ (3/10) * cur :=
        mul_le_mul_of_nonneg_right hr2.le (by linarith)
      have hbadj : (deloadWeekEntry rand w cur ri).adjustedVolume
          = jsRound (cur * (1 - deloadReductionDraw rand ri)) := rfl
      have hxval : cur * (1 - deloadReductionDraw rand ri)
          = cur - deloadReductionDraw rand ri * cur := by ring
      have hqb1 : ((deloadWeekEntry rand w cur ri).adjustedVolume : ℚ)
          ≤ cur - deloadReductionDraw rand ri * cur + 1/2 := by
        rw [hbadj]
        have h := jsRound_le (cur * (1 - deloadReductionDraw rand ri))
        linarith [hxval]
      have hqb2 : cur - deloadReductionDraw rand ri * cur - 1/2
          < ((deloadWeekEntry rand w cur ri).adjustedVolume : ℚ) := by
        rw [hbadj]
        have h := lt_jsRound (cur * (1 - deloadReductionDraw rand ri))
        linarith [hxval]
      have h17d : 17 ≤ (deloadWeekEntry rand w cur ri).adjustedVolume := by
        rw [hbadj]
        refine int_le_jsRound ?_
        rw [hxval]
        push_cast
        linarith
      have hMd : (deloadWeekEntry rand w cur ri).adjustedVolume ≤ M := by
        rw [hbadj]
        refine jsRound_le_int ?_
        rw [hxval]
        linarith
      have hn1 : (e.adjustedVolume : ℚ) ≤ cur + 1/2 := by
        rw [hadj]; exact jsRound_le cur
      have hn2 : cur - 1/2 < (e.adjustedVolume : ℚ) := by
        rw [hadj]; exact lt_jsRound cur
      have hdflag : (deloadWeekEntry rand w cur ri).isDeloadWeek = true := rfl
      have hpair : VolumePairOK e (deloadWeekEntry rand w cur ri) := by
        refine ⟨h17, ?_, ?_⟩
        · intro _ hb
          rw [hdflag] at hb
          exact Bool.noConfusion hb
        · intro _
          refine ⟨?_, ?_, ?_⟩
          · have hq : ((deloadWeekEntry rand w cur ri).adjustedVolume : ℚ)
                < (e.adjustedVolume : ℚ) := by linarith
            exact_mod_cast hq
          · linarith
          · linarith
      have hrec := ih (w + 1) cur 0 (ri + 1) (some (deloadWeekEntry rand w cur ri))
        (by omega) hl hr (consecF_after_deload c w hc hw hd).symm
        (by
          simp only [PrevState]
          refine ⟨by omega, ?_, h17d, hMd, ?_⟩
          · rw [hdflag]
            have h2 : w + 1 - 1 = w := by omega
            rw [h2, hd]
          · intro hff
            rw [hdflag] at hff
            exact Bool.noConfusion hff)
      rw [weeklyVolumesAux_deload c rand (M : ℚ) n w cur consec ri (some e) hd]
      obtain ⟨ihmem, ihchain, ihhead⟩ := hrec
      refine ⟨?_, ?_, ?_⟩
      · intro x hx
        rcases List.mem_cons.mp hx with rfl | hx2
        · refine ⟨⟨h17d, hMd, ?_⟩, ?_⟩
          · intro hff
            rw [hdflag] at hff
            exact Bool.noConfusion hff
          · show true = isDeloadWeekNumber w c
            exact hd.symm
        · exact ihmem x hx2
      · rw [List.chain'_cons']
        refine ⟨?_, ihchain⟩
        intro y hy
        exact ihhead (deloadWeekEntry rand w cur ri) y rfl (Option.mem_def.mp hy)
      · intro ep h hep hh
        injection hep with hep2
        subst hep2
        rw [List.head?_cons] at hh
        injection hh with hh2
        subst hh2
        exact hpair
    · have hdf : isDeloadWeekNumber w c = false := by
        revert hd; cases isDeloadWeekNumber w c <;> simp
      by_cases hp : 1 < w ∧ ¬(prev.elim false (·.isDeloadWeek) = true)
      · -- regular progressing week
        have hw1 : 1 < w := hp.1
        obtain ⟨e, rfl⟩ : ∃ ep, prev = some ep := by
          cases prev with
          | none =>
            exfalso
            have hw1n : w = 1 := hprev
            omega
          | some e => exact ⟨e, rfl⟩
        have hef : e.isDeloadWeek = false := by
          cases h3 : e.isDeloadWeek
          · rfl
          · exact absurd h3 hp.2
        obtain ⟨hw2, hflag, h17, heM, hnd⟩ := hprev
        obtain ⟨hadj, hSe⟩ := hnd hef
        have hpf : isDeloadWeekNumber (w - 1) c = false := by
          rw [← hflag]; exact hef
        obtain ⟨hstep, hle1⟩ := consecF_prog c w hc hw2 hdf hpf
        have hconsLT : consec < PLATEAU_WEEKS := by
          have hpw : PLATEAU_WEEKS = 2 := rfl
          omega
        have hSq : (S : ℚ) ≤ (e.adjustedVolume : ℚ) := by exact_mod_cast hSe
        have hqM : (e.adjustedVolume : ℚ) ≤ (M : ℚ) := by exact_mod_cast heM
        have hq24 : (24 : ℚ) ≤ (e.adjustedVolume : ℚ) := le_trans h24 hSq
        have hne0 : ¬ (e.adjustedVolume = 0) := by
          intro h0
          rw [h0] at hSe
          omega
        have hprevVol : previousVolumeOf (some e) cur = (e.adjustedVolume : ℚ) := by
          simp only [previousVolumeOf, if_neg hne0]
        have hq0 : (0 : ℚ) < previousVolumeOf (some e) cur := by
          rw [hprevVol]; linarith
        have hqM2 : previousVolumeOf (some e) cur ≤ (M : ℚ) := by
          rw [hprevVol]; exact hqM
        have hSpv : (S : ℚ) ≤ previousVolumeOf (some e) cur := by
          rw [hprevVol]; exact hSq
        have h24pv : (24 : ℚ) ≤ previousVolumeOf (some e) cur := by
          rw [hprevVol]; exact hq24
        obtain ⟨hp1, hp2, hp3, hp4, hp5⟩ :=
          progressionStep_spec (M : ℚ) (previousVolumeOf (some e) cur) consec hconsLT hq0 hqM2
        have hEadj : (progressEntry (M : ℚ) (some e) cur consec w).adjustedVolume
            = jsRound (progressionStep (M : ℚ) (previousVolumeOf (some e) cur) consec).1 := rfl
        have hEflag : (progressEntry (M : ℚ) (some e) cur consec w).isDeloadWeek = false := rfl
        have hEweek : (progressEntry (M : ℚ) (some e) cur consec w).weekNumber = w := rfl
        have hErate : (progressEntry (M : ℚ) (some e) cur consec w).progressionRate
            = (progressionStep (M : ℚ) (previousVolumeOf (some e) cur) consec).2.1 := rfl
        have hSadj : S ≤ (progressEntry (M : ℚ) (some e) cur consec w).adjustedVolume := by
          rw [hEadj]
          exact int_le_jsRound (by linarith)
        have hMadj : (progressEntry (M : ℚ) (some e) cur consec w).adjustedVolume ≤ M := by
          rw [hEadj]
          exact jsRound_le_int hp3
        have h17adj : 17 ≤ (progressEntry (M : ℚ) (some e) cur consec w).adjustedVolume := by
          omega
        have hjle : ((progressEntry (M : ℚ) (some e) cur consec w).adjustedVolume : ℚ)
            ≤ (progressionStep (M : ℚ) (previousVolumeOf (some e) cur) consec).1 + 1/2 := by
          rw [hEadj]
          exact jsRound_le _
        have hpair : VolumePairOK e (progressEntry (M : ℚ) (some e) cur consec w) := by
          refine ⟨h17, ?_, ?_⟩
          · intro _ _
            have hsafe : SAFE_WEEKLY_INCREASE = 8/100 := rfl
            rw [hsafe] at hp1
            linarith [hprevVol]
          · intro hb
            rw [hEflag] at hb
            exact Bool.noConfusion hb
        have hrec := ih (w + 1)
          (progressionStep (M : ℚ) (previousVolumeOf (some e) cur) consec).1
          (consec + 1) ri (some (progressEntry (M : ℚ) (some e) cur consec w))
          (by omega) (le_trans hSpv hp2) hp3
          (by omega)
          (by
            simp only [PrevState]
            refine ⟨by omega, ?_, h17adj, hMadj, ?_⟩
            · rw [hEflag]
              have h2 : w + 1 - 1 = w := by omega
              rw [h2, hdf]
            · intro _
              exact ⟨rfl, hSadj⟩)
        rw [weeklyVolumesAux_prog c rand (M : ℚ) n w cur consec ri (some e) hd hp]
        obtain ⟨ihmem, ihchain, ihhead⟩ := hrec
        refine ⟨?_, ?_, ?_⟩
        · intro x hx
          rcases List.mem_cons.mp hx with rfl | hx2
          · refine ⟨⟨h17adj, hMadj, ?_⟩, ?_⟩
            · intro _
              refine ⟨hSadj, ?_, ?_⟩
              · rw [hErate]; exact hp4
              · rw [hErate]; exact hp5
            · rw [hEflag, hEweek, hdf]
          · exact ihmem x hx2
        · rw [List.chain'_cons']
          refine ⟨?_, ihchain⟩
          intro y hy
          exact ihhead (progressEntry (M : ℚ) (some e) cur consec w) y rfl
            (Option.mem_def.mp hy)
        · intro ep h hep hh
          injection hep with hep2
          subst hep2
          rw [List.head?_cons] at hh
          injection hh with hh2
          subst hh2
          exact hpair
      · -- steady week: week 1 or the week immediately after a deload
        have hSflag : (steadyEntry w cur).isDeloadWeek = false := rfl
        have hSweek : (steadyEntry w cur).weekNumber = w := rfl
        have hSadj2 : (steadyEntry w cur).adjustedVolume = jsRound cur := rfl
        have hSrate : (steadyEntry w cur).progressionRate = 0 := rfl
        have hS17 : S ≤ (steadyEntry w cur).adjustedVolume := by
          rw [hSadj2]
          exact int_le_jsRound (by linarith)
        have hSM2 : (steadyEntry w cur).adjustedVolume ≤ M := by
          rw [hSadj2]
          exact jsRound_le_int hr
        have h17s : 17 ≤ (steadyEntry w cur).adjustedVolume := by omega
        have hmemS : VolumeEntryOK S M (steadyEntry w cur) ∧
            (steadyEntry w cur).isDeloadWeek =
              isDeloadWeekNumber (steadyEntry w cur).weekNumber c := by
          refine ⟨⟨h17s, hSM2, ?_⟩, ?_⟩
          · intro _
            refine ⟨hS17, ?_, ?_⟩
            · rw [hSrate]
            · rw [hSrate]
              norm_num [SAFE_WEEKLY_INCREASE]
          · rw [hSflag, hSweek, hdf]
        rw [weeklyVolumesAux_steady c rand (M : ℚ) n w cur consec ri prev hd hp]
        cases prev with
        | none =>
          have hw1n : w = 1 := hprev
          subst hw1n
          have he1 := consecF_one c
          have he2 := consecF_two c hc
          have hrec := ih 2 cur consec ri (some (steadyEntry 1 cur))
            (by omega) hl hr (by omega)
            (by
              simp only [PrevState]
              refine ⟨by omega, ?_, h17s, hSM2, ?_⟩
              · rw [hSflag]
                have h2 : isDeloadWeekNumber (2 - 1) c = false := rfl
                rw [h2]
              · intro _
                exact ⟨rfl, hS17⟩)
          obtain ⟨ihmem, ihchain, ihhead⟩ := hrec
          refine ⟨?_, ?_, ?_⟩
          · intro x hx
            rcases List.mem_cons.mp hx with rfl | hx2
            · exact hmemS
            · exact ihmem x hx2
          · rw [List.chain'_cons']
            refine ⟨?_, ihchain⟩
            intro y hy
            exact ihhead (steadyEntry 1 cur) y rfl (Option.mem_def.mp hy)
          · intro ep h hep hh
            exact Option.noConfusion hep
        | some e =>
          obtain ⟨hw2, hflag, h17, heM, hnd⟩ := hprev
          have hfe : e.isDeloadWeek = true := by
            by_contra hfe
            apply hp
            refine ⟨by omega, ?_⟩
            intro habs
            exact hfe habs
          have hdp : isDeloadWeekNumber (w - 1) c = true := by
            rw [← hflag]; exact hfe
          have hskip := consecF_skip c w hc hw2 hdf hdp
          have hpairS : VolumePairOK e (steadyEntry w cur) := by
            refine ⟨h17, ?_, ?_⟩
            · intro haf _
              rw [hfe] at haf
              exact Bool.noConfusion haf
            · intro hb
              rw [hSflag] at hb
              exact Bool.noConfusion hb
          have hrec := ih (w + 1) cur consec ri (some (steadyEntry w cur))
            (by omega) hl hr (by omega)
            (by
              simp only [PrevState]
              refine ⟨by omega, ?_, h17s, hSM2, ?_⟩
              · rw [hSflag]
                have h2 : w + 1 - 1 = w := by omega
                rw [h2, hdf]
              · intro _
                exact ⟨rfl, hS17⟩)
          obtain ⟨ihmem, ihchain, ihhead⟩ := hrec
          refine ⟨?_, ?_, ?_⟩
          · intro x hx
            rcases List.mem_cons.mp hx with rfl | hx2
            · exact hmemS
            · exact ihmem x hx2
          · rw [List.chain'_cons']
            refine ⟨?_, ihchain⟩
            intro y hy
            exact ihhead (steadyEntry w cur) y rfl (Option.mem_def.mp hy)
          · intro ep h hep hh
            injection hep with hep2
            subst hep2
            rw [List.head?_cons] at hh
            injection hh with hh2
            subst hh2
            exact hpairS

theorem weeklyVolumesAux_agree (c : ℕ) (r1 r2 : ℕ → ℚ) (M : ℚ) :
    ∀ (n w : ℕ) (cur : ℚ) (consec ri : ℕ)
      (p1 p2 : Option WeeklyVolumeCalculation), PrevAgree p1 p2 →
      List.Forall₂ VolumeAgree (weeklyVolumesAux c r1 M n w cur consec ri p1)
        (weeklyVolumesAux c r2 M n w cur consec ri p2) := by
  intro n
  induction n with
  | zero =>
    intro w cur consec ri p1 p2 hpa
    simp only [weeklyVolumesAux]
    exact List.Forall₂.nil
  | succ m ih =>
    intro w cur consec ri p1 p2 hpa
    by_cases hd : isDeloadWeekNumber w c = true
    · rw [weeklyVolumesAux_deload c r1 M m w cur consec ri p1 hd,
        weeklyVolumesAux_deload c r2 M m w cur consec ri p2 hd]
      refine List.Forall₂.cons ⟨rfl, rfl, rfl, fun hb => Bool.noConfusion hb⟩
        (ih (w + 1) cur 0 (ri + 1) _ _ ?_)
      simp only [PrevAgree]
      exact ⟨rfl, fun hb => Bool.noConfusion hb⟩
    · have hcond : (p1.elim false (·.isDeloadWeek)) = (p2.elim false (·.isDeloadWeek)) := by
        cases p1 with
        | none =>
          cases p2 with
          | none => rfl
          | some e2 => exact hpa.elim
        | some e1 =>
          cases p2 with
          | none => exact hpa.elim
          | some e2 =>
            obtain ⟨hf, -⟩ := hpa
            simp only [Option.elim]
            exact hf
      by_cases hp : 1 < w ∧ ¬(p1.elim false (·.isDeloadWeek) = true)
      · have hq : 1 < w ∧ ¬(p2.elim false (·.isDeloadWeek) = true) := by
          rw [← hcond]; exact hp
        have hpv : previousVolumeOf p1 cur = previousVolumeOf p2 cur := by
          cases p1 with
          | none =>
            cases p2 with
            | none => rfl
            | some e2 => exact hpa.elim
          | some e1 =>
            cases p2 with
            | none => exact hpa.elim
            | some e2 =>
              obtain ⟨hf, hee⟩ := hpa
              have he1 : e1.isDeloadWeek = false := by
                cases h3 : e1.isDeloadWeek
                · rfl
                · exact absurd h3 hp.2
              rw [hee he1]
        have hE : progressEntry M p1 cur consec w = progressEntry M p2 cur consec w := by
          simp only [progressEntry, hpv]
        rw [weeklyVolumesAux_prog c r1 M m w cur consec ri p1 hd hp,
          weeklyVolumesAux_prog c r2 M m w cur consec ri p2 hd hq, hpv, hE]
        refine List.Forall₂.cons ⟨rfl, rfl, rfl, fun _ => rfl⟩
          (ih (w + 1) _ (consec + 1) ri _ _ ?_)
        simp [PrevAgree]
      · have hq : ¬(1 < w ∧ ¬(p2.elim false (·.isDeloadWeek) = true)) := by
          rw [← hcond]; exact hp
        rw [weeklyVolumesAux_steady c r1 M m w cur consec ri p1 hd hp,
          weeklyVolumesAux_steady c r2 M m w cur consec ri p2 hd hq]
        refine List.Forall₂.cons ⟨rfl, rfl, rfl, fun _ => rfl⟩
          (ih (w + 1) cur consec ri _ _ ?_)
        simp [PrevAgree]

/-- C2: for every valid progression configuration (deload cadence 3 or 4)
and every valid random stream, every week of `calculateWeeklyVolumes` has
`adjustedVolume` at most the race/experience-specific maximum weekly
distance, and for every adjacent pair of non-deload weeks the relative
increase of `adjustedVolume` is at most `0.10 + 0.01` (10% plus one
percent of rounding slack); this covers in particular every pair in which
neither week is a deload or post-deload week. -/
theorem calculateWeeklyVolumes_progression_bounded (config : ProgressionConfig)
    (rand : ℕ → ℚ)
    (hfreq : config.deloadFrequency = 3 ∨ config.deloadFrequency = 4)
    (hrand : ValidRandomStream rand) :
    (∀ e ∈ calculateWeeklyVolumes config rand,
        e.adjustedVolume ≤
          getMaxWeeklyDistance config.raceDistance config.userExperience) ∧
    List.Chain'
      (fun a b => a.isDeloadWeek = false → b.isDeloadWeek = false →
        ((b.adjustedVolume : ℚ) - (a.adjustedVolume : ℚ)) / (a.adjustedVolume : ℚ)
          ≤ 1/10 + 1/100)
      (calculateWeeklyVolumes config rand) := by
  obtain ⟨hbase, hbm⟩ := base_le_max config.raceDistance config.userExperience
  obtain ⟨hmem, hchain, -⟩ :=
    weeklyVolumesAux_invariant config.deloadFrequency hfreq rand hrand
      (BASE_WEEKLY_DISTANCE config.raceDistance config.userExperience)
      (MAX_WEEKLY_DISTANCE config.raceDistance config.userExperience)
      hbase config.programLength 1
      ((BASE_WEEKLY_DISTANCE config.raceDistance config.userExperience : ℤ) : ℚ)
      0 0 none (le_refl 1) (le_refl _) (by exact_mod_cast hbm)
      (consecF_one _).symm (by simp only [PrevState])
  simp only [calculateWeeklyVolumes, calculateStartingDistance, getMaxWeeklyDistance]
  constructor
  · intro e he
    exact (hmem e he).1.2.1
  · refine List.Chain'.imp ?_ hchain
    intro a b hab haf hbf
    have h17 := hab.1
    have hle := hab.2.1 haf hbf
    have hapos : (0 : ℚ) < (a.adjustedVolume : ℚ) := by
      have h2 : (17 : ℚ) ≤ (a.adjustedVolume : ℚ) := by exact_mod_cast h17
      linarith
    rw [div_le_iff₀ hapos]
    linarith

theorem calculateWeeklyVolumes_progression_bounded_witness :
    (∀ e ∈ calculateWeeklyVolumes ⟨.tenK, 8, 4, 4, .intermediate⟩ (fun _ => 0),
        e.adjustedVolume ≤
          getMaxWeeklyDistance RaceDistance.tenK Experience.intermediate) ∧
    List.Chain'
      (fun a b => a.isDeloadWeek = false → b.isDeloadWeek = false →
        ((b.adjustedVolume : ℚ) - (a.adjustedVolume : ℚ)) / (a.adjustedVolume : ℚ)
          ≤ 1/10 + 1/100)
      (calculateWeeklyVolumes ⟨.tenK, 8, 4, 4, .intermediate⟩ (fun _ => 0)) :=
  calculateWeeklyVolumes_progression_bounded ⟨.tenK, 8, 4, 4, .intermediate⟩
    (fun _ => 0) (Or.inr rfl) (fun _ => ⟨le_refl 0, by norm_num⟩)

/-- C6: (a) for every week number `w ≥ 1` and every cadence `c`,
`isDeloadWeekNumber w c` holds iff `1 < w` and `w % c = 0`; (b) for every
valid configuration (cadence 3 or 4) and valid random stream, in the
output of `calculateWeeklyVolumes` every deload week drops strictly below
the immediately preceding week, by between 20% and 30% of it up to `3/2`
km of rounding slack. -/
theorem isDeloadWeekNumber_rule_and_drop (config : ProgressionConfig)
    (rand : ℕ → ℚ)
    (hfreq : config.deloadFrequency = 3 ∨ config.deloadFrequency = 4)
    (hrand : ValidRandomStream rand) :
    (∀ w c : ℕ, 1 ≤ w →
      (isDeloadWeekNumber w c = true ↔ 1 < w ∧ w % c = 0)) ∧
    List.Chain'
      (fun a b => b.isDeloadWeek = true →
        b.adjustedVolume < a.adjustedVolume ∧
        (1/5) * (a.adjustedVolume : ℚ) - 3/2 ≤
          (a.adjustedVolume : ℚ) - (b.adjustedVolume : ℚ) ∧
        (a.adjustedVolume : ℚ) - (b.adjustedVolume : ℚ) ≤
          (3/10) * (a.adjustedVolume : ℚ) + 3/2)
      (calculateWeeklyVolumes config rand) := by
  obtain ⟨hbase, hbm⟩ := base_le_max config.raceDistance config.userExperience
  obtain ⟨-, hchain, -⟩ :=
    weeklyVolumesAux_invariant config.deloadFrequency hfreq rand hrand
      (BASE_WEEKLY_DISTANCE config.raceDistance config.userExperience)
      (MAX_WEEKLY_DISTANCE config.raceDistance config.userExperience)
      hbase config.programLength 1
      ((BASE_WEEKLY_DISTANCE config.raceDistance config.userExperience : ℤ) : ℚ)
      0 0 none (le_refl 1) (le_refl _) (by exact_mod_cast hbm)
      (consecF_one _).symm (by simp only [PrevState])
  constructor
  · intro w c hw
    rw [isDeload_iff]
    constructor
    · rintro ⟨h1, h2⟩
      exact ⟨by omega, h2⟩
    · rintro ⟨h1, h2⟩
      exact ⟨by omega, h2⟩
  · simp only [calculateWeeklyVolumes, calculateStartingDistance, getMaxWeeklyDistance]
    refine List.Chain'.imp ?_ hchain
    intro a b hab hb
    exact hab.2.2 hb

theorem isDeloadWeekNumber_rule_and_drop_witness :
    (∀ w c : ℕ, 1 ≤ w →
      (isDeloadWeekNumber w c = true ↔ 1 < w ∧ w % c = 0)) ∧
    List.Chain'
      (fun a b => b.isDeloadWeek = true →
        b.adjustedVolume < a.adjustedVolume ∧
        (1/5) * (a.adjustedVolume : ℚ) - 3/2 ≤
          (a.adjustedVolume : ℚ) - (b.adjustedVolume : ℚ) ∧
        (a.adjustedVolume : ℚ) - (b.adjustedVolume : ℚ) ≤
          (3/10) * (a.adjustedVolume : ℚ) + 3/2)
      (calculateWeeklyVolumes ⟨.fiveK, 9, 4, 3, .beginner⟩ (fun _ => 1/2)) :=
  isDeloadWeekNumber_rule_and_drop ⟨.fiveK, 9, 4, 3, .beginner⟩ (fun _ => 1/2)
    (Or.inl rfl) (fun _ => ⟨by norm_num, by norm_num⟩)

/-- C10: for every valid progression configuration (deload cadence 3 or
4) and every valid random stream, every non-deload week in the output of
`calculateWeeklyVolumes` carries a `progressionRate` between 0 and the
safe weekly increase 0.08; in particular the elevated plateau rate 0.096
is never applied. -/
theorem calculateWeeklyVolumes_rate_le_safe (config : ProgressionConfig)
    (rand : ℕ → ℚ)
    (hfreq : config.deloadFrequency = 3 ∨ config.deloadFrequency = 4)
    (hrand : ValidRandomStream rand) :
    ∀ e ∈ calculateWeeklyVolumes config rand, e.isDeloadWeek = false →
      0 ≤ e.progressionRate ∧ e.progressionRate ≤ 8/100 := by
  obtain ⟨hbase, hbm⟩ := base_le_max config.raceDistance config.userExperience
  obtain ⟨hmem, -, -⟩ :=
    weeklyVolumesAux_invariant config.deloadFrequency hfreq rand hrand
      (BASE_WEEKLY_DISTANCE config.raceDistance config.userExperience)
      (MAX_WEEKLY_DISTANCE config.raceDistance config.userExperience)
      hbase config.programLength 1
      ((BASE_WEEKLY_DISTANCE config.raceDistance config.userExperience : ℤ) : ℚ)
      0 0 none (le_refl 1) (le_refl _) (by exact_mod_cast hbm)
      (consecF_one _).symm (by simp only [PrevState])
  intro e he hef
  simp only [calculateWeeklyVolumes, calculateStartingDistance, getMaxWeeklyDistance] at he
  obtain ⟨-, -, hnd⟩ := (hmem e he).1
  obtain ⟨-, hr0, hr8⟩ := hnd hef
  have hsafe : SAFE_WEEKLY_INCREASE = 8/100 := rfl
  rw [hsafe] at hr8
  exact ⟨hr0, hr8⟩

theorem calculateWeeklyVolumes_rate_le_safe_witness :
    ValidRandomStream (fun _ => 0) ∧
    (∀ e ∈ calculateWeeklyVolumes ⟨.marathon, 16, 5, 4, .advanced⟩ (fun _ => 0),
      e.isDeloadWeek = false →
        0 ≤ e.progressionRate ∧ e.progressionRate ≤ 8/100) :=
  ⟨fun _ => ⟨le_refl 0, by norm_num⟩,
    calculateWeeklyVolumes_rate_le_safe ⟨.marathon, 16, 5, 4, .advanced⟩ (fun _ => 0)
      (Or.inr rfl) (fun _ => ⟨le_refl 0, by norm_num⟩)⟩

/-- C5 counterexample: `calculateWeeklyVolumes` itself is not
deterministic in the configuration alone: two runs on the same
`ProgressionConfig` with two different (both valid) `Math.random`
streams produce different outputs, the deload week\x27s adjusted volume
differing.  The deload reduction draw is thus a second source of
run-to-run divergence besides the quality-workout skip. -/
theorem calculateWeeklyVolumes_random_divergence :
    ValidRandomStream (fun _ => 0) ∧ ValidRandomStream (fun _ => (1:ℚ)/2) ∧
    calculateWeeklyVolumes ⟨.fiveK, 3, 4, 3, .intermediate⟩ (fun _ => 0) ≠
      calculateWeeklyVolumes ⟨.fiveK, 3, 4, 3, .intermediate⟩ (fun _ => (1:ℚ)/2) := by
  refine ⟨fun _ => ⟨le_refl 0, by norm_num⟩, fun _ => ⟨by norm_num, by norm_num⟩, ?_⟩
  intro heq
  have h1 : List.map (fun e => e.adjustedVolume)
      (calculateWeeklyVolumes ⟨.fiveK, 3, 4, 3, .intermediate⟩ (fun _ => 0)) =
        [32, 35, 28] := by
    norm_num [calculateWeeklyVolumes, calculateStartingDistance, getMaxWeeklyDistance,
      BASE_WEEKLY_DISTANCE, MAX_WEEKLY_DISTANCE, weeklyVolumesAux, isDeloadWeekNumber,
      steadyEntry, progressEntry, deloadWeekEntry, previousVolumeOf, progressionStep,
      deloadReductionDraw, DELOAD_REDUCTION_MIN, DELOAD_REDUCTION_MAX,
      SAFE_WEEKLY_INCREASE, MAX_WEEKLY_INCREASE, AGGRESSIVE_THRESHOLD, PLATEAU_WEEKS,
      Option.elim, jsRound]
  have h2 : List.map (fun e => e.adjustedVolume)
      (calculateWeeklyVolumes ⟨.fiveK, 3, 4, 3, .intermediate⟩ (fun _ => (1:ℚ)/2)) =
        [32, 35, 26] := by
    norm_num [calculateWeeklyVolumes, calculateStartingDistance, getMaxWeeklyDistance,
      BASE_WEEKLY_DISTANCE, MAX_WEEKLY_DISTANCE, weeklyVolumesAux, isDeloadWeekNumber,
      steadyEntry, progressEntry, deloadWeekEntry, previousVolumeOf, progressionStep,
      deloadReductionDraw, DELOAD_REDUCTION_MIN, DELOAD_REDUCTION_MAX,
      SAFE_WEEKLY_INCREASE, MAX_WEEKLY_INCREASE, AGGRESSIVE_THRESHOLD, PLATEAU_WEEKS,
      Option.elim, jsRound]
  rw [heq, h2] at h1
  simp at h1

/-- C5 amended: every stage is deterministic given its inputs and the
random stream; for `calculateWeeklyVolumes` the randomness only enters
the deload weeks: two runs on the same configuration with any two random
streams agree entry-by-entry on week number, base volume and the deload
flag, and agree completely on every non-deload week. -/
theorem calculateWeeklyVolumes_agree_outside_deload (config : ProgressionConfig)
    (r1 r2 : ℕ → ℚ) :
    List.Forall₂ VolumeAgree (calculateWeeklyVolumes config r1)
      (calculateWeeklyVolumes config r2) := by
  simp only [calculateWeeklyVolumes]
  exact weeklyVolumesAux_agree config.deloadFrequency r1 r2 _ config.programLength 1 _
    0 0 none none trivial

/-- C8 counterexample: a training-day count change of more than one day
(3 to 5) is classified `high` by `assessChangeImpact`, not `medium` as
the claim states. -/
theorem assessChangeImpact_trainingDays_jump_is_high :
    assessChangeImpact .trainingDaysPerWeek 3 5 = .high ∧
    assessChangeImpact .trainingDaysPerWeek 3 5 ≠ .medium := by
  have h : assessChangeImpact .trainingDaysPerWeek 3 5 = .high := by
    norm_num [assessChangeImpact]
  refine ⟨h, ?_⟩
  rw [h]
  decide

/-- C8 (amended): `assessChangeImpact` classifies race distance, program
length and training-day count changes of more than one day as `high`;
training-day changes of at most one day, rest days, long-run day, deload
cadence, user experience and difficulty as `medium`; and pace method or
pace data as `low`.  With default options (no forced full regeneration),
`determineRegenerationStrategy` chooses a full re-run exactly when some
change is high-impact or at least three changes are medium-impact. -/
theorem assessChangeImpact_strategy_characterization :
    (∀ o n : ℚ,
      assessChangeImpact .raceDistance o n = .high ∧
      assessChangeImpact .programLength o n = .high ∧
      assessChangeImpact .trainingDaysPerWeek o n =
        (if 1 < |n - o| then .high else .medium) ∧
      assessChangeImpact .restDays o n = .medium ∧
      assessChangeImpact .longRunDay o n = .medium ∧
      assessChangeImpact .deloadFrequency o n = .medium ∧
      assessChangeImpact .userExperience o n = .medium ∧
      assessChangeImpact .difficulty o n = .medium ∧
      assessChangeImpact .paceMethod o n = .low ∧
      assessChangeImpact .paceData o n = .low) ∧
    (∀ (changes : List ConfigurationChange) (options : RegenerationOptions),
      options.forceFullRegeneration = false →
      ((determineRegenerationStrategy changes options).1 = .full ↔
        (∃ c ∈ changes, c.impact = .high) ∨
          3 ≤ (changes.filter (fun c => c.impact == ChangeImpact.medium)).length)) := by
  constructor
  · intro o n
    refine ⟨rfl, rfl, rfl, rfl, rfl, rfl, rfl, rfl, rfl, rfl⟩
  · intro changes options hopt
    have hfl := List.length_filter_le (fun c => c.impact == ChangeImpact.medium) changes
    simp only [determineRegenerationStrategy, hopt, Bool.false_eq_true, if_false]
    split_ifs with h0 h1 h2 h3
    · have hnil : changes = [] := List.length_eq_zero.mp h0
      subst hnil
      simp
    · simp only [List.any_eq_true, beq_iff_eq] at h1
      simpa using Or.inl h1
    · simp only [true_iff]
      exact Or.inr (by omega)
    · constructor
      · intro hfull
        exact absurd hfull (by decide)
      · rintro (hex | hlen)
        · exact absurd hex (by simpa [List.any_eq_true] using h1)
        · omega
    · constructor
      · intro hfull
        exact absurd hfull (by decide)
      · rintro (hex | hlen)
        · exact absurd hex (by simpa [List.any_eq_true] using h1)
        · omega

/-- Witness for the C8 strategy characterization at a concrete change
list (one high-impact change forces a full re-run). -/
theorem assessChangeImpact_strategy_characterization_witness :
    (determineRegenerationStrategy
        [⟨.raceDistance, 0, 1, .high⟩] ⟨false⟩).1 = .full ↔
      (∃ c ∈ [(⟨.raceDistance, 0, 1, .high⟩ : ConfigurationChange)], c.impact = .high) ∨
        3 ≤ (([⟨.raceDistance, 0, 1, .high⟩] :
          List ConfigurationChange).filter
            (fun c => c.impact == ChangeImpact.medium)).length :=
  assessChangeImpact_strategy_characterization.2 [⟨.raceDistance, 0, 1, .high⟩]
    ⟨false⟩ rfl

/-- C9 counterexample: `applyDeloadToWeeklyPlan` scales the weekly
duration by `(1 - reduction * 0.8)`, not `(1 - reduction)`: with a
300-minute week and a 25% reduction the result is 240 minutes, which is
more than a rounding tolerance away from `300 * 0.75 = 225`. -/
theorem applyDeloadToWeeklyPlan_duration_not_scaled_by_reduction :
    (applyDeloadToWeeklyPlan
        ⟨4, .build, false, [], 30, 48, 300, 4, 1, none, none⟩
        ⟨4, true, 1/4, [], [], []⟩).weeklyDuration = 240 ∧
    (1/2 : ℚ) <
      |(applyDeloadToWeeklyPlan
          ⟨4, .build, false, [], 30, 48, 300, 4, 1, none, none⟩
          ⟨4, true, 1/4, [], [], []⟩).weeklyDuration - 300 * (1 - 1/4)| := by
  norm_num [applyDeloadToWeeklyPlan, jsRound]

/-- C9 (amended): `applyDeloadToWeeklyPlan` scales the aggregate volume
totals by `(1 - reduction)` (up to rounding) and the aggregate duration
by `(1 - reduction * 0.8)` (up to rounding), marks the week as a deload
week, rewrites the weekly focus and notes text, and leaves every other
field unchanged -- in particular the per-day workout list, the workout
counts, the phase and the week number -- without re-running the weekly
scheduler. -/
theorem applyDeloadToWeeklyPlan_effects (weeklyPlan : WeeklyPlan)
    (deloadConfig : DeloadWeekConfiguration) :
    (applyDeloadToWeeklyPlan weeklyPlan deloadConfig).weeklyVolume =
      ((jsRound (weeklyPlan.weeklyVolume * (1 - deloadConfig.volumeReduction)) : ℤ) : ℚ) ∧
    (applyDeloadToWeeklyPlan weeklyPlan deloadConfig).weeklyVolumeKm =
      ((jsRound (weeklyPlan.weeklyVolumeKm * (1 - deloadConfig.volumeReduction)) : ℤ) : ℚ) ∧
    |(applyDeloadToWeeklyPlan weeklyPlan deloadConfig).weeklyVolumeKm -
      weeklyPlan.weeklyVolumeKm * (1 - deloadConfig.volumeReduction)| ≤ 1/2 ∧
    (applyDeloadToWeeklyPlan weeklyPlan deloadConfig).weeklyDuration =
      ((jsRound (weeklyPlan.weeklyDuration *
        (1 - deloadConfig.volumeReduction * (8/10))) : ℤ) : ℚ) ∧
    (applyDeloadToWeeklyPlan weeklyPlan deloadConfig).isDeloadWeek = true ∧
    (applyDeloadToWeeklyPlan weeklyPlan deloadConfig).days = weeklyPlan.days ∧
    (applyDeloadToWeeklyPlan weeklyPlan deloadConfig).workoutCount =
      weeklyPlan.workoutCount ∧
    (applyDeloadToWeeklyPlan weeklyPlan deloadConfig).qualityWorkoutCount =
      weeklyPlan.qualityWorkoutCount ∧
    (applyDeloadToWeeklyPlan weeklyPlan deloadConfig).phase = weeklyPlan.phase ∧
    (applyDeloadToWeeklyPlan weeklyPlan deloadConfig).weekNumber =
      weeklyPlan.weekNumber :=
  ⟨rfl, rfl, jsRound_close _, rfl, rfl, rfl, rfl, rfl, rfl, rfl⟩

/-- C7 counterexample: the whole-plan progression validator reports a
finding for an 11% non-deload week-over-week volume increase, although
11% is at or below the claimed 12%-with-tolerance bound. -/
theorem validateProgressionPrinciples_reports_eleven_percent :
    ((111 - 100 : ℚ) / 100 ≤ 12/100) ∧
    validateProgressionPrinciples
      ⟨"p", ⟨.tenK, 2, 4, [], .sunday, 4, none, none, none, none⟩,
       [⟨1, .base, false, [], 0, 100, 0, 4, 1, none, none⟩,
        ⟨2, .base, false, [], 0, 111, 0, 4, 1, none, none⟩],
       ⟨0, 0, 0, 0, 0, 0, ⟨0, 0, 0, 0⟩, ⟨0, 0, 0, 0⟩, "1.0.0"⟩⟩ ≠ [] := by
  constructor
  · norm_num
  · norm_num [validateProgressionPrinciples, progressionFindings]

/-- Helper for C7: the progression scan is empty exactly when every
adjacent pair of non-deload weeks has relative volume increase at most
10%. -/
theorem progressionFindings_eq_nil_iff (weeks : List WeeklyPlan) :
    progressionFindings weeks = [] ↔
      weeks.Chain' (fun a b => a.isDeloadWeek = false → b.isDeloadWeek = false →
        (b.weeklyVolumeKm - a.weeklyVolumeKm) / a.weeklyVolumeKm ≤ 1/10) := by
  induction weeks with
  | nil => simp [progressionFindings]
  | cons a rest ih =>
    cases rest with
    | nil => simp [progressionFindings]
    | cons b rest' =>
      rw [List.chain'_cons]
      constructor
      · intro h
        have happ := List.append_eq_nil.mp h
        refine ⟨?_, (ih.mp happ.2 : _)⟩
        intro ha hb
        by_contra hgt
        rw [not_le] at hgt
        have : (if !b.isDeloadWeek && !a.isDeloadWeek then
            if (1 : ℚ)/10 < (b.weeklyVolumeKm - a.weeklyVolumeKm) / a.weeklyVolumeKm then
              ["Week " ++ toString b.weekNumber ++ ": " ++
                toString (jsRound ((b.weeklyVolumeKm - a.weeklyVolumeKm) /
                  a.weeklyVolumeKm * 100)) ++ "% volume increase exceeds 10% rule"]
            else []
          else []) = [] := happ.1
        rw [ha, hb] at this
        simp [hgt] at this
        linarith
      · intro ⟨hab, hrest⟩
        have h2 := ih.mpr hrest
        show (_ ++ progressionFindings (b :: rest')) = []
        rw [h2, List.append_nil]
        by_cases ha : a.isDeloadWeek
        · simp [ha]
        · by_cases hb : b.isDeloadWeek
          · simp [hb]
          · have hle := hab (by simpa using ha) (by simpa using hb)
            simp only [ha, hb, Bool.not_false, Bool.and_self, if_true]
            rw [if_neg (not_lt.mpr hle)]

/-- C7 (amended): the orchestrator's whole-plan progression validation
enforces a strict 10% bound with no rounding tolerance: it reports a
finding for an adjacent pair of non-deload weeks exactly when the
relative week-over-week `weeklyVolumeKm` increase strictly exceeds 10%,
and reports nothing when every such increase is at most 10%.
(The positivity hypothesis keeps the rational-division model aligned
with the JavaScript arithmetic, which has no division-by-zero value.) -/
theorem validateProgressionPrinciples_strict_ten_percent (plan : TrainingPlan)
    (hpos : ∀ w ∈ plan.weeks, 0 < w.weeklyVolumeKm) :
    validateProgressionPrinciples plan = [] ↔
      plan.weeks.Chain' (fun a b => a.isDeloadWeek = false → b.isDeloadWeek = false →
        (b.weeklyVolumeKm - a.weeklyVolumeKm) / a.weeklyVolumeKm ≤ 1/10) :=
  progressionFindings_eq_nil_iff plan.weeks

/-- Witness for C7 (amended) on a concrete two-week plan with a 5%
increase: no finding is reported. -/
theorem validateProgressionPrinciples_strict_ten_percent_witness :
    validateProgressionPrinciples
      ⟨"p", ⟨.tenK, 2, 4, [], .sunday, 4, none, none, none, none⟩,
       [⟨1, .base, false, [], 0, 100, 0, 4, 1, none, none⟩,
        ⟨2, .base, false, [], 0, 105, 0, 4, 1, none, none⟩],
       ⟨0, 0, 0, 0, 0, 0, ⟨0, 0, 0, 0⟩, ⟨0, 0, 0, 0⟩, "1.0.0"⟩⟩ = [] ↔
      ([⟨1, .base, false, [], 0, 100, 0, 4, 1, none, none⟩,
        ⟨2, .base, false, [], 0, 105, 0, 4, 1, none, none⟩] :
          List WeeklyPlan).Chain'
        (fun a b => a.isDeloadWeek = false → b.isDeloadWeek = false →
          (b.weeklyVolumeKm - a.weeklyVolumeKm) / a.weeklyVolumeKm ≤ 1/10) :=
  validateProgressionPrinciples_strict_ten_percent
    ⟨"p", ⟨.tenK, 2, 4, [], .sunday, 4, none, none, none, none⟩,
     [⟨1, .base, false, [], 0, 100, 0, 4, 1, none, none⟩,
      ⟨2, .base, false, [], 0, 105, 0, 4, 1, none, none⟩],
     ⟨0, 0, 0, 0, 0, 0, ⟨0, 0, 0, 0⟩, ⟨0, 0, 0, 0⟩, "1.0.0"⟩⟩
    (by intro w hw; simp at hw; rcases hw with h | h <;> subst h <;> norm_num)

theorem days_calculateWeeklyTotals (w : WeeklyPlan) :
    (calculateWeeklyTotals w).days = w.days := rfl

theorem days_applyDeloadToPlanWeek (L : List DeloadWeekConfiguration)
    (p : WeeklyPlan) : (applyDeloadToPlanWeek L p).days = p.days := by
  simp only [applyDeloadToPlanWeek]
  cases L.find? (fun dw => dw.weekNumber == p.weekNumber) <;> rfl

theorem days_scheduleWeekEntry (cs : SchedulingConstraints)
    (per : PhasePeriodization) (wd : WeeklyDistributionEntry) :
    (scheduleWeekEntry cs per wd).1.days =
      (scheduleWeeklyWorkouts wd.weekNumber cs
        (distributionWorkouts wd.distribution) wd.phase).scheduledWeek.elim []
        (·.dailyWorkouts) := rfl

theorem weeks_createFinalTrainingPlan (c : PlanConfiguration)
    (w : List WeeklyPlan) (p : PhasePeriodization) :
    (createFinalTrainingPlan c w p).result.weeks = w := rfl

theorem validateCompletePlan_fails_of_short_week (plan : TrainingPlan)
    (q : WeeklyPlan) (hq : q ∈ plan.weeks) (hqd : q.days.length ≠ 7) :
    (validateCompletePlan plan).success = false := by
  simp only [validateCompletePlan, List.map_map]
  rw [List.isEmpty_eq_false_iff_exists_mem]
  refine ⟨"Week " ++ toString q.weekNumber ++ " does not have 7 days", ?_⟩
  refine List.mem_append.mpr (Or.inr ?_)
  refine List.mem_flatten.mpr ⟨_, List.mem_map_of_mem _ hq, ?_⟩
  dsimp only [Function.comp]
  rw [if_pos hqd]
  exact List.mem_singleton.mpr rfl

/-- C4 (amended): if the weekly scheduler fails for some week so hard
that it produces no schedule at all (`scheduledWeek = null`, as happens
exactly when the scheduling constraints are infeasible), the whole
generation aborts: that week keeps an empty day list, the step-8
whole-plan validation rejects it (`does not have 7 days`), and
`generatePlan` returns `success = false` with `plan = null`. -/
theorem generatePlanTail_aborts_on_unscheduled_week (config : PlanConfiguration)
    (weeklyDistributions : List WeeklyDistributionEntry)
    (entry : WeeklyDistributionEntry) (hmem : entry ∈ weeklyDistributions)
    (hfail : (scheduleWeeklyWorkouts entry.weekNumber
        (createSchedulingConstraints config)
        (distributionWorkouts entry.distribution) entry.phase).scheduledWeek = none) :
    (generatePlanTail config weeklyDistributions).success = false ∧
    (generatePlanTail config weeklyDistributions).plan = none := by
  have hdays0 : (scheduleWeekEntry (createSchedulingConstraints config)
      (calculatePhasePeriodization config.programLength config.raceDistance)
        entry).1.days = [] := by
    rw [days_scheduleWeekEntry, hfail]
    rfl
  have hmem0 : (scheduleWeekEntry (createSchedulingConstraints config)
      (calculatePhasePeriodization config.programLength config.raceDistance) entry).1 ∈
      (optimizeWeeklySchedules config weeklyDistributions
        (calculatePhasePeriodization config.programLength config.raceDistance)).result := by
    simp only [optimizeWeeklySchedules, List.map_map]
    exact List.mem_map_of_mem _ hmem
  obtain ⟨q, hq, hqdays⟩ : ∃ q ∈ (applyDeloadWeeks config (optimizeWeeklySchedules config
      weeklyDistributions (calculatePhasePeriodization config.programLength
        config.raceDistance)).result).result, q.days = [] := by
    simp only [applyDeloadWeeks]
    exact ⟨_, List.mem_map_of_mem _ hmem0,
      by rw [days_applyDeloadToPlanWeek, hdays0]⟩
  have hval := validateCompletePlan_fails_of_short_week
    (createFinalTrainingPlan config
      (applyDeloadWeeks config (optimizeWeeklySchedules config weeklyDistributions
        (calculatePhasePeriodization config.programLength config.raceDistance)).result).result
      (calculatePhasePeriodization config.programLength config.raceDistance)).result
    q (by rw [weeks_createFinalTrainingPlan]; exact hq) (by rw [hqdays]; decide)
  simp only [generatePlanTail]
  rw [hval]
  exact ⟨rfl, rfl⟩

theorem generatePlanTail_aborts_on_unscheduled_week_witness :
    (⟨1, .base, ⟨0, ⟨0, 0, 0, 0⟩, []⟩⟩ : WeeklyDistributionEntry) ∈
      [(⟨1, .base, ⟨0, ⟨0, 0, 0, 0⟩, []⟩⟩ : WeeklyDistributionEntry)] ∧
    (scheduleWeeklyWorkouts 1
      (createSchedulingConstraints ⟨.tenK, 1, 6,
        [.monday, .tuesday, .wednesday, .thursday, .friday], .sunday, 4,
        none, none, none, none⟩)
      (distributionWorkouts ⟨0, ⟨0, 0, 0, 0⟩, []⟩)
      TrainingPhase.base).scheduledWeek = none ∧
    (generatePlanTail ⟨.tenK, 1, 6,
        [.monday, .tuesday, .wednesday, .thursday, .friday], .sunday, 4,
        none, none, none, none⟩
      [⟨1, .base, ⟨0, ⟨0, 0, 0, 0⟩, []⟩⟩]).success = false ∧
    (generatePlanTail ⟨.tenK, 1, 6,
        [.monday, .tuesday, .wednesday, .thursday, .friday], .sunday, 4,
        none, none, none, none⟩
      [⟨1, .base, ⟨0, ⟨0, 0, 0, 0⟩, []⟩⟩]).plan = none := by
  have h := generatePlanTail_aborts_on_unscheduled_week
    ⟨.tenK, 1, 6, [.monday, .tuesday, .wednesday, .thursday, .friday], .sunday, 4,
      none, none, none, none⟩
    [⟨1, .base, ⟨0, ⟨0, 0, 0, 0⟩, []⟩⟩]
    ⟨1, .base, ⟨0, ⟨0, 0, 0, 0⟩, []⟩⟩
    (List.mem_singleton.mpr rfl) (by decide)
  exact ⟨List.mem_singleton.mpr rfl, by decide, h.1, h.2⟩

/-- C4 counterexample: a week whose scheduling FAILS (`success = false`,
because the single supplied workout cannot fill the configured 4 training
days) but still yields a 7-day `scheduledWeek` is NOT aborted on:
`generatePlanTail` returns `success = true` with a plan containing the
failed week, because `optimizeWeeklySchedules` demotes the failure to a
warning and the whole-plan validation only rejects weeks without 7 days
(the training-day mismatch is a warning). -/
theorem generatePlanTail_succeeds_despite_failed_week :
    (scheduleWeeklyWorkouts 1
      (createSchedulingConstraints ⟨.tenK, 1, 4, [.monday], .sunday, 4,
        none, none, none, none⟩)
      (distributionWorkouts ⟨2, ⟨1, 1, 0, 3⟩,
        [⟨.sunday, some ⟨.long, 60, some 10, .zone2, "d", "p", 24, none, none, none⟩,
          false, none⟩]⟩)
      TrainingPhase.base).success = false ∧
    (generatePlanTail ⟨.tenK, 1, 4, [.monday], .sunday, 4, none, none, none, none⟩
      [⟨1, .base, ⟨2, ⟨1, 1, 0, 3⟩,
        [⟨.sunday, some ⟨.long, 60, some 10, .zone2, "d", "p", 24, none, none, none⟩,
          false, none⟩]⟩⟩]).success = true ∧
    (generatePlanTail ⟨.tenK, 1, 4, [.monday], .sunday, 4, none, none, none, none⟩
      [⟨1, .base, ⟨2, ⟨1, 1, 0, 3⟩,
        [⟨.sunday, some ⟨.long, 60, some 10, .zone2, "d", "p", 24, none, none, none⟩,
          false, none⟩]⟩⟩]).plan.isSome = true := by
  refine ⟨by decide, by decide, by decide⟩

theorem getD_set_eq {α : Type} (l : List α) (i : ℕ) (v d : α) (h : i < l.length) :
    (l.set i v).getD i d = v := by
  induction l generalizing i with
  | nil => simp at h
  | cons a t ih =>
    cases i with
    | zero => rfl
    | succ i2 => exact ih i2 (by simpa using h)

theorem getD_set_ne {α : Type} (l : List α) (i j : ℕ) (v d : α) (h : i ≠ j) :
    (l.set i v).getD j d = l.getD j d := by
  induction l generalizing i j with
  | nil => rfl
  | cons a t ih =>
    cases i with
    | zero =>
      cases j with
      | zero => exact absurd rfl h
      | succ j2 => rfl
    | succ i2 =>
      cases j with
      | zero => rfl
      | succ j2 => exact ih i2 j2 (fun hh => h (by rw [hh]))

theorem getD_eq_of_get? {α : Type} (l : List α) (i : ℕ) (a d : α)
    (h : l.get? i = some a) : l.getD i d = a := by
  have hb : l.getD i d = (l.get? i).getD d := by
    simp [List.getD, List.get?_eq_getElem?]
  rw [hb, h]
  rfl

theorem get?_lt_length {α : Type} (l : List α) (i : ℕ) (a : α)
    (h : l.get? i = some a) : i < l.length := by
  obtain ⟨hlt, -⟩ := List.get?_eq_some.mp h
  exact hlt

theorem dayIndex_lt_seven (d : DayOfWeek) : dayIndex d < 7 := by
  cases d <;> decide

theorem dayAt_dayIndex (d : DayOfWeek) : dayAt (dayIndex d) = d := by
  cases d <;> rfl

theorem contains_day_iff (l : List DayOfWeek) (d : DayOfWeek) :
    l.contains d = true ↔ d ∈ l := by
  simp [List.contains]

theorem dayIndex_inj (d e : DayOfWeek) (h : dayIndex d = dayIndex e) : d = e := by
  have h2 := dayAt_dayIndex d
  rw [h, dayAt_dayIndex] at h2
  exact h2.symm

theorem length_initialDailyWorkouts (c : SchedulingConstraints) :
    (initialDailyWorkouts c).length = 7 := rfl

theorem initialDailyWorkouts_getD (c : SchedulingConstraints) (i : ℕ) (h : i < 7) :
    (initialDailyWorkouts c).getD i defaultDay =
      ⟨dayAt i, none, c.restDays.contains (dayAt i), none⟩ := by
  interval_cases i <;> rfl

theorem mem_insertNatAsc (x y : ℕ) (l : List ℕ) :
    y ∈ insertNatAsc x l ↔ y = x ∨ y ∈ l := by
  induction l with
  | nil => simp [insertNatAsc]
  | cons a t ih =>
    simp only [insertNatAsc]
    split_ifs with hx
    · simp [List.mem_cons]
    · simp only [List.mem_cons, ih]
      tauto

theorem mem_sortNatAsc (x : ℕ) (l : List ℕ) : x ∈ sortNatAsc l ↔ x ∈ l := by
  induction l with
  | nil => simp [sortNatAsc]
  | cons a t ih => simp [sortNatAsc, mem_insertNatAsc, ih, List.mem_cons]

theorem mem_getAvailableTrainingDays (cur : List DailyWorkout)
    (c : SchedulingConstraints) (i : ℕ) (h : i ∈ getAvailableTrainingDays cur c) :
    i < 7 ∧ c.restDays.contains (dayAt i) = false ∧
      (cur.getD i defaultDay).workout = none := by
  unfold getAvailableTrainingDays at h
  rw [List.mem_filter] at h
  obtain ⟨hr, hp⟩ := h
  rw [List.mem_range] at hr
  rw [Bool.and_eq_true, Bool.not_eq_true', Option.isNone_iff_eq_none] at hp
  exact ⟨hr, hp.1, hp.2⟩

theorem findOptimalQualityWorkoutDay_spec (c : SchedulingConstraints) (lri : ℕ)
    (cur : List DailyWorkout) (qd : ℕ)
    (h : findOptimalQualityWorkoutDay c lri cur = some qd) :
    qd < 7 ∧ c.restDays.contains (dayAt qd) = false ∧
      (cur.getD qd defaultDay).workout = none ∧ qd ≠ lri := by
  simp only [findOptimalQualityWorkoutDay] at h
  split_ifs at h with he ho
  · -- no optimal day: first available day
    have hmem : qd ∈ (List.range 7).filter (fun i =>
        !c.restDays.contains (dayAt i) &&
          (cur.getD i defaultDay).workout.isNone && i != lri) :=
      List.mem_of_mem_head? (Option.mem_def.mpr h)
    rw [List.mem_filter] at hmem
    obtain ⟨hr, hp⟩ := hmem
    rw [List.mem_range] at hr
    rw [Bool.and_eq_true, Bool.and_eq_true, Bool.not_eq_true',
      Option.isNone_iff_eq_none, bne_iff_ne] at hp
    exact ⟨hr, hp.1.1, hp.1.2, hp.2⟩
  · -- first optimal day
    have hmem : qd ∈ ((List.range 7).filter (fun i =>
        !c.restDays.contains (dayAt i) &&
          (cur.getD i defaultDay).workout.isNone && i != lri)).filter
        (fun dayIndex => 2 ≤ calculateDaysBetween dayIndex lri) :=
      List.mem_of_mem_head? (Option.mem_def.mpr h)
    rw [List.mem_filter] at hmem
    obtain ⟨hmem2, -⟩ := hmem
    rw [List.mem_filter] at hmem2
    obtain ⟨hr, hp⟩ := hmem2
    rw [List.mem_range] at hr
    rw [Bool.and_eq_true, Bool.and_eq_true, Bool.not_eq_true',
      Option.isNone_iff_eq_none, bne_iff_ne] at hp
    exact ⟨hr, hp.1.1, hp.1.2, hp.2⟩

theorem length_placeEasyWorkouts (pairs : List (ℕ × WorkoutBagEntry))
    (d : List DailyWorkout) : (placeEasyWorkouts d pairs).length = d.length := by
  induction pairs generalizing d with
  | nil => rfl
  | cons p rest ih =>
    obtain ⟨pi, pw⟩ := p
    simp only [placeEasyWorkouts]
    rw [ih, List.length_set]

theorem placeEasyWorkouts_getD_untouched (pairs : List (ℕ × WorkoutBagEntry))
    (d : List DailyWorkout) (k : ℕ) (h : ∀ p ∈ pairs, p.1 ≠ k) :
    (placeEasyWorkouts d pairs).getD k defaultDay = d.getD k defaultDay := by
  induction pairs generalizing d with
  | nil => rfl
  | cons p rest ih =>
    obtain ⟨pi, pw⟩ := p
    simp only [placeEasyWorkouts]
    rw [ih _ (fun q hq => h q (List.mem_cons_of_mem _ hq))]
    exact getD_set_ne _ _ _ _ _ (h (pi, pw) (List.mem_cons_self _ _))

theorem placeEasyWorkouts_notQ (pairs : List (ℕ × WorkoutBagEntry))
    (d : List DailyWorkout) (k : ℕ)
    (hrec : ∀ p ∈ pairs, p.2.workout.type ≠ WorkoutType.quality)
    (hbase : isQualityDay (d.getD k defaultDay) = false) :
    isQualityDay ((placeEasyWorkouts d pairs).getD k defaultDay) = false := by
  induction pairs generalizing d with
  | nil => exact hbase
  | cons p rest ih =>
    obtain ⟨pi, pw⟩ := p
    simp only [placeEasyWorkouts]
    refine ih _ (fun q hq => hrec q (List.mem_cons_of_mem _ hq)) ?_
    by_cases hk : pi = k
    · subst hk
      by_cases hlen : pi < d.length
      · rw [getD_set_eq _ _ _ _ hlen]
        have hq := hrec (pi, pw) (List.mem_cons_self _ _)
        simp only [isQualityDay, Option.elim]
        rw [beq_eq_false_iff_ne]
        exact hq
      · rw [List.set_eq_of_length_le (by omega)]
        exact hbase
    · rw [getD_set_ne _ _ _ _ _ hk]
      exact hbase

theorem mem_qualityDayIdxs (l : List DailyWorkout) (x : ℕ) :
    x ∈ qualityDayIdxs l ↔
      ∃ day, l.get? x = some day ∧ isQualityDay day = true := by
  unfold qualityDayIdxs
  constructor
  · intro hx
    rw [List.mem_map] at hx
    obtain ⟨p, hp, hpx⟩ := hx
    rw [List.mem_filter] at hp
    obtain ⟨hpe, hpq⟩ := hp
    obtain ⟨i, day⟩ := p
    rw [List.mk_mem_enum_iff_getElem?] at hpe
    simp only at hpx
    subst hpx
    rw [← List.get?_eq_getElem?] at hpe
    exact ⟨day, hpe, hpq⟩
  · rintro ⟨day, hget, hq⟩
    rw [List.mem_map]
    refine ⟨(x, day), ?_, rfl⟩
    rw [List.mem_filter]
    rw [List.get?_eq_getElem?] at hget
    exact ⟨List.mk_mem_enum_iff_getElem?.mpr hget, hq⟩

theorem validateSchedulingConstraints_valid_no_conflict
    (c : SchedulingConstraints)
    (h : (validateSchedulingConstraints c).isValid = true) :
    c.restDays.contains c.longRunDay = false := by
  simp only [validateSchedulingConstraints] at h
  rw [List.isEmpty_iff, List.append_eq_nil] at h
  by_contra hc
  have hc2 : c.restDays.contains c.longRunDay = true := by
    cases h2 : c.restDays.contains c.longRunDay
    · exact absurd h2 hc
    · rfl
  rw [if_pos hc2] at h
  exact List.noConfusion h.2

theorem getD_oob {α : Type} (l : List α) (i : ℕ) (d : α) (h : l.length ≤ i) :
    l.getD i d = d := by
  simp [List.getD, List.getElem?_eq_none h]

theorem scheduleLongRunStep_found (c : SchedulingConstraints)
    (workouts : List WorkoutBagEntry) (lw : WorkoutBagEntry)
    (h : workouts.find? (fun w => w.type == WorkoutType.long) = some lw) :
    (scheduleLongRunStep c workouts).1 =
      (initialDailyWorkouts c).set (dayIndex c.longRunDay)
        ⟨c.longRunDay, some lw.workout, false, none⟩ := by
  simp only [scheduleLongRunStep, h]

theorem scheduleQualityStep_cases (weekNumber : ℕ) (c : SchedulingConstraints)
    (workouts : List WorkoutBagEntry) (phase : TrainingPhase)
    (d : List DailyWorkout) :
    (scheduleQualityStep weekNumber c workouts phase d).1 = d ∨
    ∃ qw qd, workouts.find? (fun w => w.type == WorkoutType.quality) = some qw ∧
      findOptimalQualityWorkoutDay c (dayIndex c.longRunDay) d = some qd ∧
      (scheduleQualityStep weekNumber c workouts phase d).1 =
        d.set qd ⟨dayAt qd, some (enhanceQualityWorkout qw.workout
          (getQualityWorkoutRotation weekNumber).qualityType phase), false, none⟩ := by
  simp only [scheduleQualityStep]
  cases hq : workouts.find? (fun w => w.type == WorkoutType.quality) with
  | none => exact Or.inl rfl
  | some qw =>
    cases hf : findOptimalQualityWorkoutDay c (dayIndex c.longRunDay) d with
    | none => exact Or.inl rfl
    | some qd => exact Or.inr ⟨qw, qd, rfl, rfl, rfl⟩

theorem scheduleEasyStep_shape (c : SchedulingConstraints)
    (workouts : List WorkoutBagEntry) (d : List DailyWorkout) :
    ∃ pairs : List (ℕ × WorkoutBagEntry),
      (scheduleEasyStep c workouts d).1 = placeEasyWorkouts d pairs ∧
      ∀ p ∈ pairs, p.1 ∈ getAvailableTrainingDays d c ∧
        p.2 ∈ workouts.filter (fun w => w.type == WorkoutType.easy) := by
  refine ⟨((sortNatAsc (getAvailableTrainingDays d c)).zip
      (workouts.filter (fun w => w.type == WorkoutType.easy))).take
      (min (min (workouts.filter (fun w => w.type == WorkoutType.easy)).length
        (sortNatAsc (getAvailableTrainingDays d c)).length)
        (max 0 ((c.trainingDaysPerWeek : ℤ) -
          (d.filter (fun day => !day.isRestDay && day.workout.isSome)).length)).toNat),
    rfl, ?_⟩
  intro p hp
  have hz := List.of_mem_zip (List.mem_of_mem_take hp)
  exact ⟨(mem_sortNatAsc _ _).mp hz.1, hz.2⟩

/-- C3: whenever `scheduleWeeklyWorkouts` returns a scheduled week for a
workout bag whose entries are well-typed and which contains a long-run
workout, success holds exactly when no constraint violation was recorded,
and on success the schedule places a long-typed workout on the configured
long-run day, leaves every configured rest day flagged as a rest day and
without a workout, schedules exactly the configured number of training
days, and contains no two quality workouts at a circular day-distance
below 2 (at most one quality workout is ever placed). -/
theorem scheduleWeeklyWorkouts_success_invariants
    (weekNumber : ℕ) (constraints : SchedulingConstraints)
    (workouts : List WorkoutBagEntry) (phase : TrainingPhase)
    (hwf : ∀ e ∈ workouts, e.workout.type = e.type)
    (hlong : ∃ lw ∈ workouts, lw.type = WorkoutType.long)
    (sw : ScheduledWeek)
    (hsw : (scheduleWeeklyWorkouts weekNumber constraints workouts phase).scheduledWeek
      = some sw) :
    ((scheduleWeeklyWorkouts weekNumber constraints workouts phase).success = true ↔
      sw.constraintViolations = []) ∧
    ((scheduleWeeklyWorkouts weekNumber constraints workouts phase).success = true →
      (∃ w : Workout,
        (sw.dailyWorkouts.getD (dayIndex constraints.longRunDay) defaultDay).workout
          = some w ∧ w.type = WorkoutType.long) ∧
      (∀ rd ∈ constraints.restDays,
        (sw.dailyWorkouts.getD (dayIndex rd) defaultDay).isRestDay = true ∧
        (sw.dailyWorkouts.getD (dayIndex rd) defaultDay).workout = none) ∧
      (sw.dailyWorkouts.filter
        (fun day => !day.isRestDay && day.workout.isSome)).length
        = constraints.trainingDaysPerWeek ∧
      (∀ p q, p ∈ qualityDayIdxs sw.dailyWorkouts →
        q ∈ qualityDayIdxs sw.dailyWorkouts → p ≠ q →
        2 ≤ calculateDaysBetween p q)) := by
  have hvalid : (validateSchedulingConstraints constraints).isValid = true := by
    cases hv : (validateSchedulingConstraints constraints).isValid
    · exfalso
      simp [scheduleWeeklyWorkouts, hv] at hsw
    · rfl
  have hcl : constraints.restDays.contains constraints.longRunDay = false :=
    validateSchedulingConstraints_valid_no_conflict constraints hvalid
  obtain ⟨lw0, hlw0, hlw0t⟩ := hlong
  have hfs : (workouts.find? (fun w => w.type == WorkoutType.long)).isSome = true := by
    rw [List.find?_isSome]
    exact ⟨lw0, hlw0, by rw [hlw0t]; rfl⟩
  obtain ⟨lw, hfind⟩ := Option.isSome_iff_exists.mp hfs
  have hlwmem := List.mem_of_find?_eq_some hfind
  have hlwt : lw.type = WorkoutType.long := by
    have h1 := List.find?_some hfind
    rwa [beq_iff_eq] at h1
  have hlwwt : lw.workout.type = WorkoutType.long := by rw [hwf lw hlwmem, hlwt]
  -- reduce hsw and the goal to the validation-passed branch
  simp only [scheduleWeeklyWorkouts, hvalid, Bool.not_true, Bool.false_eq_true,
    if_false] at hsw ⊢
  injection hsw with hsw2
  subst hsw2
  dsimp only
  -- abbreviate the three construction stages
  have hd1eq : (scheduleLongRunStep constraints workouts).1 =
      (initialDailyWorkouts constraints).set (dayIndex constraints.longRunDay)
        ⟨constraints.longRunDay, some lw.workout, false, none⟩ :=
    scheduleLongRunStep_found constraints workouts lw hfind
  have hlen1 : (scheduleLongRunStep constraints workouts).1.length = 7 := by
    rw [hd1eq, List.length_set]
    rfl
  have hd1long : (scheduleLongRunStep constraints workouts).1.getD
      (dayIndex constraints.longRunDay) defaultDay =
      ⟨constraints.longRunDay, some lw.workout, false, none⟩ := by
    rw [hd1eq]
    exact getD_set_eq _ _ _ _ (by
      rw [length_initialDailyWorkouts]
      exact dayIndex_lt_seven _)
  have hlongne : ∀ rd ∈ constraints.restDays,
      dayIndex constraints.longRunDay ≠ dayIndex rd := by
    intro rd hrd h
    have h2 := dayIndex_inj _ _ h
    rw [← h2] at hrd
    rw [(contains_day_iff _ _).mpr hrd] at hcl
    exact Bool.noConfusion hcl
  have hd1rest : ∀ rd ∈ constraints.restDays,
      (scheduleLongRunStep constraints workouts).1.getD (dayIndex rd) defaultDay =
        ⟨rd, none, true, none⟩ := by
    intro rd hrd
    rw [hd1eq, getD_set_ne _ _ _ _ _ (hlongne rd hrd),
      initialDailyWorkouts_getD _ _ (dayIndex_lt_seven rd), dayAt_dayIndex,
      (contains_day_iff _ _).mpr hrd]
  have hd1q : ∀ k, isQualityDay
      ((scheduleLongRunStep constraints workouts).1.getD k defaultDay) = false := by
    intro k
    by_cases hk : k = dayIndex constraints.longRunDay
    · subst hk
      rw [hd1long]
      simp [isQualityDay, hlwwt]
    · by_cases hk7 : k < 7
      · rw [hd1eq, getD_set_ne _ _ _ _ _ (fun h => hk h.symm),
          initialDailyWorkouts_getD _ _ hk7]
        rfl
      · rw [hd1eq, getD_oob _ _ _ (by rw [List.length_set, length_initialDailyWorkouts]; omega)]
        rfl
  -- case on whether a quality workout was placed and derive the stage-2 facts
  rcases scheduleQualityStep_cases weekNumber constraints workouts phase
      (scheduleLongRunStep constraints workouts).1 with hA | ⟨qw, qd, hqfind, hqopt, hA⟩
  -- first branch: no quality workout placed
  · obtain ⟨pairs, hFeq, hpairs⟩ := scheduleEasyStep_shape constraints workouts
      (scheduleQualityStep weekNumber constraints workouts phase
        (scheduleLongRunStep constraints workouts).1).1
    have hAlen : (scheduleQualityStep weekNumber constraints workouts phase
        (scheduleLongRunStep constraints workouts).1).1.length = 7 := by
      rw [hA]; exact hlen1
    have hAlong : (scheduleQualityStep weekNumber constraints workouts phase
        (scheduleLongRunStep constraints workouts).1).1.getD
        (dayIndex constraints.longRunDay) defaultDay =
        ⟨constraints.longRunDay, some lw.workout, false, none⟩ := by
      rw [hA]; exact hd1long
    have hArest : ∀ rd ∈ constraints.restDays,
        (scheduleQualityStep weekNumber constraints workouts phase
          (scheduleLongRunStep constraints workouts).1).1.getD (dayIndex rd) defaultDay =
          ⟨rd, none, true, none⟩ := by
      rw [hA]; exact hd1rest
    have hAq : ∀ k, isQualityDay ((scheduleQualityStep weekNumber constraints workouts
        phase (scheduleLongRunStep constraints workouts).1).1.getD k defaultDay)
        = false := by
      rw [hA]; exact hd1q
    have hpu : ∀ p ∈ pairs, p.1 ≠ dayIndex constraints.longRunDay := by
      intro p hp h
      obtain ⟨-, -, hnone⟩ := mem_getAvailableTrainingDays _ _ _ (hpairs p hp).1
      rw [h, hAlong] at hnone
      exact Option.noConfusion hnone
    have hpr : ∀ rd ∈ constraints.restDays, ∀ p ∈ pairs, p.1 ≠ dayIndex rd := by
      intro rd hrd p hp h
      obtain ⟨-, hcont, -⟩ := mem_getAvailableTrainingDays _ _ _ (hpairs p hp).1
      rw [h, dayAt_dayIndex, (contains_day_iff _ _).mpr hrd] at hcont
      exact Bool.noConfusion hcont
    have hpt : ∀ p ∈ pairs, p.2.workout.type ≠ WorkoutType.quality := by
      intro p hp
      have h2 := (hpairs p hp).2
      rw [List.mem_filter] at h2
      obtain ⟨hmem2, htype⟩ := h2
      rw [beq_iff_eq] at htype
      rw [hwf _ hmem2, htype]
      exact fun h => WorkoutType.noConfusion h
    have hFq : ∀ k, isQualityDay
        (((scheduleEasyStep constraints workouts (scheduleQualityStep weekNumber
          constraints workouts phase (scheduleLongRunStep constraints
            workouts).1).1).1).getD k defaultDay) = false := by
      intro k
      rw [hFeq]
      exact placeEasyWorkouts_notQ pairs _ k hpt (hAq k)
    refine ⟨List.isEmpty_iff, fun hsucc => ?_⟩
    refine ⟨⟨lw.workout, ?_, hlwwt⟩, ?_, ?_, ?_⟩
    · rw [hFeq, placeEasyWorkouts_getD_untouched pairs _
        (dayIndex constraints.longRunDay) hpu, hAlong]
    · intro rd hrd
      rw [hFeq, placeEasyWorkouts_getD_untouched pairs _ (dayIndex rd) (hpr rd hrd),
        hArest rd hrd]
      exact ⟨rfl, rfl⟩
    · have hviol := List.isEmpty_iff.mp hsucc
      simp only [validateFinalSchedule] at hviol
      rw [List.append_eq_nil, List.append_eq_nil] at hviol
      by_contra hne
      rw [if_pos hne] at hviol
      exact List.noConfusion hviol.1.1
    · intro p q hp hq hpq
      exfalso
      obtain ⟨day, hget, hqd⟩ := (mem_qualityDayIdxs _ _).mp hp
      have hgd := getD_eq_of_get? _ _ _ defaultDay hget
      rw [← hgd] at hqd
      rw [hFq p] at hqd
      exact Bool.noConfusion hqd
  -- second branch: a quality workout was placed on day qd
  · obtain ⟨pairs, hFeq, hpairs⟩ := scheduleEasyStep_shape constraints workouts
      (scheduleQualityStep weekNumber constraints workouts phase
        (scheduleLongRunStep constraints workouts).1).1
    obtain ⟨hqd7, hqdcont, hqdnone, hqdne⟩ :=
      findOptimalQualityWorkoutDay_spec _ _ _ _ hqopt
    have hAlen : (scheduleQualityStep weekNumber constraints workouts phase
        (scheduleLongRunStep constraints workouts).1).1.length = 7 := by
      rw [hA, List.length_set]; exact hlen1
    have hAlong : (scheduleQualityStep weekNumber constraints workouts phase
        (scheduleLongRunStep constraints workouts).1).1.getD
        (dayIndex constraints.longRunDay) defaultDay =
        ⟨constraints.longRunDay, some lw.workout, false, none⟩ := by
      rw [hA, getD_set_ne _ _ _ _ _ hqdne]
      exact hd1long
    have hArest : ∀ rd ∈ constraints.restDays,
        (scheduleQualityStep weekNumber constraints workouts phase
          (scheduleLongRunStep constraints workouts).1).1.getD (dayIndex rd) defaultDay =
          ⟨rd, none, true, none⟩ := by
      intro rd hrd
      have hne : qd ≠ dayIndex rd := by
        intro h
        rw [h, dayAt_dayIndex, (contains_day_iff _ _).mpr hrd] at hqdcont
        exact Bool.noConfusion hqdcont
      rw [hA, getD_set_ne _ _ _ _ _ hne]
      exact hd1rest rd hrd
    have hAq : ∀ k, k ≠ qd → isQualityDay ((scheduleQualityStep weekNumber constraints
        workouts phase (scheduleLongRunStep constraints workouts).1).1.getD k
          defaultDay) = false := by
      intro k hk
      rw [hA, getD_set_ne _ _ _ _ _ (fun h => hk h.symm)]
      exact hd1q k
    have hpu : ∀ p ∈ pairs, p.1 ≠ dayIndex constraints.longRunDay := by
      intro p hp h
      obtain ⟨-, -, hnone⟩ := mem_getAvailableTrainingDays _ _ _ (hpairs p hp).1
      rw [h, hAlong] at hnone
      exact Option.noConfusion hnone
    have hpr : ∀ rd ∈ constraints.restDays, ∀ p ∈ pairs, p.1 ≠ dayIndex rd := by
      intro rd hrd p hp h
      obtain ⟨-, hcont, -⟩ := mem_getAvailableTrainingDays _ _ _ (hpairs p hp).1
      rw [h, dayAt_dayIndex, (contains_day_iff _ _).mpr hrd] at hcont
      exact Bool.noConfusion hcont
    have hpt : ∀ p ∈ pairs, p.2.workout.type ≠ WorkoutType.quality := by
      intro p hp
      have h2 := (hpairs p hp).2
      rw [List.mem_filter] at h2
      obtain ⟨hmem2, htype⟩ := h2
      rw [beq_iff_eq] at htype
      rw [hwf _ hmem2, htype]
      exact fun h => WorkoutType.noConfusion h
    have hFq : ∀ k, k ≠ qd → isQualityDay
        (((scheduleEasyStep constraints workouts (scheduleQualityStep weekNumber
          constraints workouts phase (scheduleLongRunStep constraints
            workouts).1).1).1).getD k defaultDay) = false := by
      intro k hk
      rw [hFeq]
      exact placeEasyWorkouts_notQ pairs _ k hpt (hAq k hk)
    refine ⟨List.isEmpty_iff, fun hsucc => ?_⟩
    refine ⟨⟨lw.workout, ?_, hlwwt⟩, ?_, ?_, ?_⟩
    · rw [hFeq, placeEasyWorkouts_getD_untouched pairs _
        (dayIndex constraints.longRunDay) hpu, hAlong]
    · intro rd hrd
      rw [hFeq, placeEasyWorkouts_getD_untouched pairs _ (dayIndex rd) (hpr rd hrd),
        hArest rd hrd]
      exact ⟨rfl, rfl⟩
    · have hviol := List.isEmpty_iff.mp hsucc
      simp only [validateFinalSchedule] at hviol
      rw [List.append_eq_nil, List.append_eq_nil] at hviol
      by_contra hne
      rw [if_pos hne] at hviol
      exact List.noConfusion hviol.1.1
    · have huniq : ∀ x, x ∈ qualityDayIdxs ((scheduleEasyStep constraints workouts
          (scheduleQualityStep weekNumber constraints workouts phase
            (scheduleLongRunStep constraints workouts).1).1).1) → x = qd := by
        intro x hx
        obtain ⟨day, hget, hqd⟩ := (mem_qualityDayIdxs _ _).mp hx
        have hgd := getD_eq_of_get? _ _ _ defaultDay hget
        by_contra hne
        rw [← hgd] at hqd
        rw [hFq x hne] at hqd
        exact Bool.noConfusion hqd
      intro p q hp hq hpq
      exfalso
      rw [huniq p hp, huniq q hq] at hpq
      exact absurd rfl hpq

theorem scheduleWeeklyWorkouts_success_invariants_witness :
    ((scheduleWeeklyWorkouts 1 ⟨[.monday], .sunday, 2, 48⟩
      [⟨.long, ⟨.long, 60, some 12, .zone2, "d", "p", 24, none, none, none⟩⟩,
       ⟨.easy, ⟨.easy, 40, some 8, .zone1, "e", "q", 12, none, none, none⟩⟩]
      TrainingPhase.base).success = true ↔
      (⟨1,
        [⟨.monday, none, true, none⟩,
         ⟨.tuesday, some ⟨.easy, 40, some 8, .zone1, "e", "q", 12, none, none, none⟩,
           false, none⟩,
         ⟨.wednesday, none, false, none⟩, ⟨.thursday, none, false, none⟩,
         ⟨.friday, none, false, none⟩, ⟨.saturday, none, false, none⟩,
         ⟨.sunday, some ⟨.long, 60, some 12, .zone2, "d", "p", 24, none, none, none⟩,
           false, none⟩],
        getQualityWorkoutRotation 1,
        ["Long run scheduled on Sunday", "Easy run scheduled on Tuesday"],
        []⟩ : ScheduledWeek).constraintViolations = []) ∧
    ((scheduleWeeklyWorkouts 1 ⟨[.monday], .sunday, 2, 48⟩
      [⟨.long, ⟨.long, 60, some 12, .zone2, "d", "p", 24, none, none, none⟩⟩,
       ⟨.easy, ⟨.easy, 40, some 8, .zone1, "e", "q", 12, none, none, none⟩⟩]
      TrainingPhase.base).success = true →
      (∃ w : Workout,
        ((⟨1,
          [⟨.monday, none, true, none⟩,
           ⟨.tuesday, some ⟨.easy, 40, some 8, .zone1, "e", "q", 12, none, none, none⟩,
             false, none⟩,
           ⟨.wednesday, none, false, none⟩, ⟨.thursday, none, false, none⟩,
           ⟨.friday, none, false, none⟩, ⟨.saturday, none, false, none⟩,
           ⟨.sunday, some ⟨.long, 60, some 12, .zone2, "d", "p", 24, none, none, none⟩,
             false, none⟩],
          getQualityWorkoutRotation 1,
          ["Long run scheduled on Sunday", "Easy run scheduled on Tuesday"],
          []⟩ : ScheduledWeek).dailyWorkouts.getD
            (dayIndex (⟨[.monday], .sunday, 2, 48⟩ : SchedulingConstraints).longRunDay)
            defaultDay).workout = some w ∧ w.type = WorkoutType.long) ∧
      (∀ rd ∈ (⟨[.monday], .sunday, 2, 48⟩ : SchedulingConstraints).restDays,
        ((⟨1,
          [⟨.monday, none, true, none⟩,
           ⟨.tuesday, some ⟨.easy, 40, some 8, .zone1, "e", "q", 12, none, none, none⟩,
             false, none⟩,
           ⟨.wednesday, none, false, none⟩, ⟨.thursday, none, false, none⟩,
           ⟨.friday, none, false, none⟩, ⟨.saturday, none, false, none⟩,
           ⟨.sunday, some ⟨.long, 60, some 12, .zone2, "d", "p", 24, none, none, none⟩,
             false, none⟩],
          getQualityWorkoutRotation 1,
          ["Long run scheduled on Sunday", "Easy run scheduled on Tuesday"],
          []⟩ : ScheduledWeek).dailyWorkouts.getD (dayIndex rd)
            defaultDay).isRestDay = true ∧
        ((⟨1,
          [⟨.monday, none, true, none⟩,
           ⟨.tuesday, some ⟨.easy, 40, some 8, .zone1, "e", "q", 12, none, none, none⟩,
             false, none⟩,
           ⟨.wednesday, none, false, none⟩, ⟨.thursday, none, false, none⟩,
           ⟨.friday, none, false, none⟩, ⟨.saturday, none, false, none⟩,
           ⟨.sunday, some ⟨.long, 60, some 12, .zone2, "d", "p", 24, none, none, none⟩,
             false, none⟩],
          getQualityWorkoutRotation 1,
          ["Long run scheduled on Sunday", "Easy run scheduled on Tuesday"],
          []⟩ : ScheduledWeek).dailyWorkouts.getD (dayIndex rd)
            defaultDay).workout = none) ∧
      ((⟨1,
        [⟨.monday, none, true, none⟩,
         ⟨.tuesday, some ⟨.easy, 40, some 8, .zone1, "e", "q", 12, none, none, none⟩,
           false, none⟩,
         ⟨.wednesday, none, false, none⟩, ⟨.thursday, none, false, none⟩,
         ⟨.friday, none, false, none⟩, ⟨.saturday, none, false, none⟩,
         ⟨.sunday, some ⟨.long, 60, some 12, .zone2, "d", "p", 24, none, none, none⟩,
           false, none⟩],
        getQualityWorkoutRotation 1,
        ["Long run scheduled on Sunday", "Easy run scheduled on Tuesday"],
        []⟩ : ScheduledWeek).dailyWorkouts.filter
          (fun day => !day.isRestDay && day.workout.isSome)).length =
        (⟨[.monday], .sunday, 2, 48⟩ : SchedulingConstraints).trainingDaysPerWeek ∧
      (∀ p q, p ∈ qualityDayIdxs (⟨1,
          [⟨.monday, none, true, none⟩,
           ⟨.tuesday, some ⟨.easy, 40, some 8, .zone1, "e", "q", 12, none, none, none⟩,
             false, none⟩,
           ⟨.wednesday, none, false, none⟩, ⟨.thursday, none, false, none⟩,
           ⟨.friday, none, false, none⟩, ⟨.saturday, none, false, none⟩,
           ⟨.sunday, some ⟨.long, 60, some 12, .zone2, "d", "p", 24, none, none, none⟩,
             false, none⟩],
          getQualityWorkoutRotation 1,
          ["Long run scheduled on Sunday", "Easy run scheduled on Tuesday"],
          []⟩ : ScheduledWeek).dailyWorkouts →
        q ∈ qualityDayIdxs (⟨1,
          [⟨.monday, none, true, none⟩,
           ⟨.tuesday, some ⟨.easy, 40, some 8, .zone1, "e", "q", 12, none, none, none⟩,
             false, none⟩,
           ⟨.wednesday, none, false, none⟩, ⟨.thursday, none, false, none⟩,
           ⟨.friday, none, false, none⟩, ⟨.saturday, none, false, none⟩,
           ⟨.sunday, some ⟨.long, 60, some 12, .zone2, "d", "p", 24, none, none, none⟩,
             false, none⟩],
          getQualityWorkoutRotation 1,
          ["Long run scheduled on Sunday", "Easy run scheduled on Tuesday"],
          []⟩ : ScheduledWeek).dailyWorkouts → p ≠ q →
        2 ≤ calculateDaysBetween p q)) :=
  scheduleWeeklyWorkouts_success_invariants 1 ⟨[.monday], .sunday, 2, 48⟩
    [⟨.long, ⟨.long, 60, some 12, .zone2, "d", "p", 24, none, none, none⟩⟩,
     ⟨.easy, ⟨.easy, 40, some 8, .zone1, "e", "q", 12, none, none, none⟩⟩]
    TrainingPhase.base (by decide)
    ⟨⟨.long, ⟨.long, 60, some 12, .zone2, "d", "p", 24, none, none, none⟩⟩,
      List.mem_cons_self _ _, rfl⟩
    ⟨1,
      [⟨.monday, none, true, none⟩,
       ⟨.tuesday, some ⟨.easy, 40, some 8, .zone1, "e", "q", 12, none, none, none⟩,
         false, none⟩,
       ⟨.wednesday, none, false, none⟩, ⟨.thursday, none, false, none⟩,
       ⟨.friday, none, false, none⟩, ⟨.saturday, none, false, none⟩,
       ⟨.sunday, some ⟨.long, 60, some 12, .zone2, "d", "p", 24, none, none, none⟩,
         false, none⟩],
      getQualityWorkoutRotation 1,
      ["Long run scheduled on Sunday", "Easy run scheduled on Tuesday"],
      []⟩ rfl

end RunPlanr
